import Mathlib

/-!
Verification of the two project-scaffolding generators in this repository
(`create_django_project.py` and `create_fast_api_project.py`).

Shallow embedding: every filesystem and subprocess effect of a run becomes an
element of an explicit event trace.  A `World` supplies the results of external
commands and may make any filesystem operation fail, so error-propagation
claims can quantify over all environments.  Python's `str.format` is modelled
character by character, because one template (`SETUP_TEMPLATE` of the FastAPI
generator) contains unescaped braces and its formatting raises `KeyError`.
-/

namespace AutoProj

/-- `str(Path(base) / rel)` for the relative paths the generators build:
Python's `Path("")` is `Path(".")`, and `Path("") / "x"` is `Path("x")`, so an
empty base disappears; otherwise the components are joined with a slash. -/
def pjoin (base rel : String) : String :=
  if base = "" then rel else base ++ "/" ++ rel

/-- `str(Path p)` as the generators pass it for `cwd=` arguments:
`Path("")` renders as `"."`. -/
def pathStr (p : String) : String := if p = "" then "." else p

/-- The characters strictly before the last `/` of a character list, or
`none` when there is no slash. -/
def preLastSlash : List Char → Option (List Char)
  | [] => none
  | c :: cs =>
    match preLastSlash cs with
    | some r => some (c :: r)
    | none => if c = '/' then some [] else none

/-- `Path(p).parent` on the slash-joined path strings this model builds: the
part before the last slash, or `"."` when there is no slash (Python's
`Path("manage.py").parent` is `Path(".")`). -/
def parentDir (p : String) : String :=
  match preLastSlash p.data with
  | some r => String.mk r
  | none => "."

/-- The Python exceptions that can arise in this model: `OSError` from a
filesystem or venv operation, and `KeyError` / `ValueError` from
`str.format`. -/
inductive PyExc
  | osError (msg : String)
  | keyError (key : String)
  | valueError (msg : String)
deriving DecidableEq

/-- `str(e)` for the exceptions above, as interpolated by the generators'
top-level handler.  `str(KeyError(k))` is `repr(k)`; for a key that contains
no single quote (the only kind this model produces) that is the key wrapped
in single quotes. -/
def PyExc.toMsg : PyExc → String
  | .osError m => m
  | .keyError k => "'" ++ k ++ "'"
  | .valueError m => m

/-- Parser state for the `str.format` model: normal text, just after an
opening or a closing brace, reading a replacement field's name, skipping its
format spec, just after `!` (about to read the conversion character), or
after the conversion character. -/
inductive FmtMode
  | text
  | obrace
  | cbrace
  | fname (acc : List Char)
  | fspec (nm : List Char)
  | fconv (nm : List Char)
  | fend (nm : List Char)

/-- Resolve a parsed replacement field with `format(project_name=sub)`:
the one supplied keyword is `project_name`; any other field name raises
`KeyError(name)`, exactly as CPython's lookup does.  The templates never
attach a conversion or a non-empty spec to `project_name` itself, so the
substitution ignores them. -/
def fmtSub (sub : String) (nm : List Char) (rest : Except PyExc (List Char)) :
    Except PyExc (List Char) :=
  if String.mk nm = "project_name" then (sub.data ++ ·) <$> rest
  else .error (.keyError (String.mk nm))

/-- One step of CPython's format-string scanner, for the subset of the syntax
the repository's templates exercise: `\x7b\x7b` and `\x7d\x7d` are literal
braces, `\x7b` opens a replacement field whose name runs to `!`, `:` or
`\x7d`, a `:` starts a format spec that runs to the next `\x7d` (the
templates never nest braces inside a spec), and a lone `\x7d` is a
`ValueError`. -/
def fmtStep (sub : String) : FmtMode → List Char → Except PyExc (List Char)
  | .text, [] => .ok []
  | .text, c :: cs =>
    if c = '{' then fmtStep sub .obrace cs
    else if c = '}' then fmtStep sub .cbrace cs
    else (fun l => c :: l) <$> fmtStep sub .text cs
  | .obrace, [] => .error (.valueError "Single '\x7b' encountered in format string")
  | .obrace, c :: cs =>
    if c = '{' then (fun l => c :: l) <$> fmtStep sub .text cs
    else if c = '}' then fmtSub sub [] (fmtStep sub .text cs)
    else if c = ':' then fmtStep sub (.fspec []) cs
    else if c = '!' then fmtStep sub (.fconv []) cs
    else fmtStep sub (.fname [c]) cs
  | .cbrace, [] => .error (.valueError "Single '\x7d' encountered in format string")
  | .cbrace, c :: cs =>
    if c = '}' then (fun l => c :: l) <$> fmtStep sub .text cs
    else .error (.valueError "Single '\x7d' encountered in format string")
  | .fname _, [] => .error (.valueError "expected '\x7d' before end of string")
  | .fname acc, c :: cs =>
    if c = '}' then fmtSub sub acc (fmtStep sub .text cs)
    else if c = ':' then fmtStep sub (.fspec acc) cs
    else if c = '!' then fmtStep sub (.fconv acc) cs
    else fmtStep sub (.fname (acc ++ [c])) cs
  | .fspec _, [] => .error (.valueError "expected '\x7d' before end of string")
  | .fspec nm, c :: cs =>
    if c = '}' then fmtSub sub nm (fmtStep sub .text cs)
    else fmtStep sub (.fspec nm) cs
  | .fconv _, [] => .error (.valueError "expected '\x7d' before end of string")
  | .fconv nm, _ :: cs => fmtStep sub (.fend nm) cs
  | .fend _, [] => .error (.valueError "expected '\x7d' before end of string")
  | .fend nm, c :: cs =>
    if c = '}' then fmtSub sub nm (fmtStep sub .text cs)
    else if c = ':' then fmtStep sub (.fspec nm) cs
    else .error (.valueError "unexpected character after conversion in format string")

/-- Python `template.format(project_name=sub)` for the format-string subset
the repository's templates use. -/
def pyFormat (template sub : String) : Except PyExc String :=
  String.mk <$> fmtStep sub .text template.data

/-- One observable effect of a generator run. -/
inductive Ev
  | mkdirp (path : String)       -- `Path.mkdir(parents=True, exist_ok=True)`
  | mkdir (path : String)        -- `Path.mkdir(exist_ok=True)`
  | write (path : String) (content : String)
  | touch (path : String)        -- `Path.touch()`
  | chmod (path : String) (mode : Nat)
  | venvCreate (path : String)   -- `venv.create(path, with_pip=True)`
  | exec (command : String) (cwd : String)   -- `subprocess.run(command, cwd=cwd, shell=True, ...)`
  | echo (msg : String)          -- `print(msg)`
deriving DecidableEq

/-- Whether an event is a filesystem or environment-provisioning operation
(one that can raise an `OSError`). -/
def Ev.isFs : Ev → Bool
  | .mkdirp _ | .mkdir _ | .write _ _ | .touch _ | .chmod _ _ | .venvCreate _ => true
  | _ => false

/-- Whether an event is an external command or the venv creation, i.e. a step
of environment provisioning or command orchestration rather than template
materialization. -/
def Ev.isCmdOrVenv : Ev → Bool
  | .exec _ _ | .venvCreate _ => true
  | _ => false

/-- Whether an event is a `chmod`. -/
def Ev.isChmod : Ev → Bool
  | .chmod _ _ => true
  | _ => false

/-- The captured result of one external command. -/
structure CmdResult where
  stdout : String
  stderr : String
  returncode : Int
deriving DecidableEq

/-- The environment of a run: the result each external command would return,
and, for each filesystem operation, whether it raises (`some message`,
modelling an `OSError` with that message) or succeeds (`none`). -/
structure World where
  exec : String → String → CmdResult
  fsFail : Ev → Option String

/-- The world in which every filesystem operation succeeds and every external
command exits with status 0. -/
def allOk : World := ⟨fun _ _ => ⟨"", "", 0⟩, fun _ => none⟩

/-- Why a run stopped early: `sys.exit(code)` (with `SystemExit` not caught by
the generators' `except Exception`), or a propagating Python exception. -/
inductive Halt
  | sysExit (code : Int)
  | raised (e : PyExc)
deriving DecidableEq

/-- The outcome of `create_project_structure`: normal return of the
activation-script path, process termination via `sys.exit`, or a raised
exception. -/
inductive Outcome
  | success (activate_script : String)
  | sysExit (code : Int)
  | raised (e : PyExc)
deriving DecidableEq

def Halt.toOutcome : Halt → Outcome
  | .sysExit c => .sysExit c
  | .raised e => .raised e

/-- `run_command(command, cwd)`: runs the command; on exit status 0 returns
its captured stdout, otherwise prints the command and its captured stderr and
calls `sys.exit(1)`. -/
def run_command (w : World) (command cwd : String) : List Ev × Except Int String :=
  let r := w.exec command cwd
  if r.returncode = 0 then ([.exec command cwd], .ok r.stdout)
  else ([.exec command cwd,
         .echo ("Error running command: " ++ command),
         .echo ("Error: " ++ r.stderr)], .error 1)

/-- The result of attempting one event: the effects that happened and either
"continue" or a halt. -/
inductive StepRes
  | emit (evs : List Ev)
  | halt (evs : List Ev) (h : Halt)

/-- Attempt one event against the world: a print always happens; an external
command uses `run_command` (a non-zero exit halts via `sys.exit(1)` after the
diagnostic prints); a filesystem operation consults `World.fsFail` (a failure
raises an `OSError` and the operation does not happen). -/
def stepEv (w : World) (ev : Ev) : StepRes :=
  match ev with
  | .echo m => .emit [.echo m]
  | .exec c cwd =>
    match run_command w c cwd with
    | (evs, .ok _) => .emit evs
    | (evs, .error code) => .halt evs (.sysExit code)
  | op =>
    match w.fsFail op with
    | some m => .halt [] (.raised (.osError m))
    | none => .emit [op]

/-- Execute a straight-line sequence of effects against a world, stopping at
the first halt.  Returns the trace of effects that actually happened and the
halt, if any; the operations after a halt never execute. -/
def runSeq (w : World) : List Ev → List Ev × Option Halt
  | [] => ([], none)
  | ev :: rest =>
    match stepEv w ev with
    | .emit evs => let p := runSeq w rest; (evs ++ p.1, p.2)
    | .halt evs h => (evs, some h)

/-- `create_file_with_content(file_path, content)`: make the parent directory
(`parents=True, exist_ok=True`), then write the content (overwriting). -/
def create_file_with_content (file_path content : String) : List Ev :=
  [.mkdirp (parentDir file_path), .write file_path content]

/-- The `(path, content)` pairs written by a trace, in order. -/
def writesOf (t : List Ev) : List (String × String) :=
  t.filterMap fun e =>
    match e with
    | .write p c => some (p, c)
    | _ => none

/-- The paths touched (`Path.touch()`) by a trace, in order. -/
def touchesOf (t : List Ev) : List String :=
  t.filterMap fun e =>
    match e with
    | .touch p => some p
    | _ => none

/-- File contents as a partial map from path to content. -/
abbrev FileSys := String → Option String

/-- Effect of one event on file contents: a write overwrites, a touch creates
an empty file only when none exists, every other event leaves contents
unchanged. -/
def applyEv (fs : FileSys) : Ev → FileSys
  | .write p c => fun q => if q = p then some c else fs q
  | .touch p => fun q => if q = p then some ((fs p).getD "") else fs q
  | _ => fs

/-- Replay a whole trace against a filesystem. -/
def applyTrace (fs : FileSys) (t : List Ev) : FileSys := t.foldl applyEv fs

/-! ### Basic string and path lemmas -/

lemma string_data_append (a b : String) : (a ++ b).data = a.data ++ b.data := by
  cases a; cases b; rfl

lemma string_eq_of_data (a b : String) (h : a.data = b.data) : a = b := by
  cases a; cases b; exact congrArg String.mk h

lemma string_append_left_cancel (s t u : String) (h : s ++ t = s ++ u) : t = u := by
  apply string_eq_of_data
  have h2 := congrArg String.data h
  rw [string_data_append, string_data_append] at h2
  exact List.append_cancel_left h2

lemma string_append_assoc (a b c : String) : a ++ b ++ c = a ++ (b ++ c) := by
  apply string_eq_of_data
  simp [string_data_append]

lemma string_ne_empty_iff (s : String) : s ≠ "" ↔ s.data ≠ [] := by
  cases s with
  | mk d =>
    constructor
    · intro h h2
      exact h (congrArg String.mk h2)
    · intro h h2
      exact h (congrArg String.data h2)

lemma string_append_ne_empty_left (s t : String) (h : s ≠ "") : s ++ t ≠ "" := by
  rw [string_ne_empty_iff] at h ⊢
  rw [string_data_append]
  simp [h]

lemma pjoin_empty (rel : String) : pjoin "" rel = rel := rfl

lemma pjoin_ne (base rel : String) (h : base ≠ "") :
    pjoin base rel = base ++ "/" ++ rel := by
  simp [pjoin, h]

lemma pjoin_ne_empty (base rel : String) (h : rel ≠ "") : pjoin base rel ≠ "" := by
  by_cases hb : base = ""
  · simpa [pjoin, hb] using h
  · rw [pjoin_ne base rel hb]
    exact string_append_ne_empty_left _ _ (string_append_ne_empty_left _ _ hb)

/-- Joining two relative components is joining their slash concatenation, as
long as the middle component is non-empty. -/
lemma pjoin_pjoin (base a b : String) (ha : a ≠ "") :
    pjoin (pjoin base a) b = pjoin base (a ++ "/" ++ b) := by
  by_cases hb : base = ""
  · subst hb
    simp [pjoin_empty, pjoin_ne a b ha]
  · rw [pjoin_ne base a hb, pjoin_ne base (a ++ "/" ++ b) hb,
        pjoin_ne _ b (string_append_ne_empty_left _ _ (string_append_ne_empty_left _ _ hb))]
    simp [string_append_assoc]

lemma pjoin_right_injective (base : String) :
    Function.Injective (pjoin base) := by
  intro a b h
  by_cases hb : base = ""
  · simpa [pjoin, hb] using h
  · rw [pjoin_ne base a hb, pjoin_ne base b hb,
        string_append_assoc, string_append_assoc] at h
    exact string_append_left_cancel _ _ _
      (string_append_left_cancel _ _ _
        (by rwa [← string_append_assoc, ← string_append_assoc] at h))

/-! ### Lemmas about `stepEv` and `runSeq` -/

lemma stepEv_allOk (ev : Ev) : stepEv allOk ev = .emit [ev] := by
  cases ev <;> rfl

/-- An event that did not halt happened exactly once. -/
lemma stepEv_emit_eq (w : World) (ev : Ev) (evs : List Ev)
    (h : stepEv w ev = .emit evs) : evs = [ev] := by
  cases ev <;> simp only [stepEv, run_command] at h
  case exec c cwd =>
    by_cases hr : (w.exec c cwd).returncode = 0 <;> simp [hr] at h <;> simp [h]
  all_goals
    first
    | (cases h; rfl)
    | (cases hf : w.fsFail _ <;> rw [hf] at h <;> simp_all)

/-- A halt that raised an exception came from a failed filesystem operation,
and the exception carries that operation's message unmodified. -/
lemma stepEv_halt_raised (w : World) (ev : Ev) (evs : List Ev) (e : PyExc)
    (h : stepEv w ev = .halt evs (.raised e)) :
    evs = [] ∧ ∃ m, w.fsFail ev = some m ∧ e = .osError m := by
  cases ev <;> simp only [stepEv, run_command] at h
  case echo m => cases h
  case exec c cwd =>
    by_cases hr : (w.exec c cwd).returncode = 0 <;> simp [hr] at h
  all_goals
    cases hf : w.fsFail _ <;> rw [hf] at h <;> simp_all

/-- A halt that exited the process came from a failed external command; the
exit status is 1 and the trace records the command and the two diagnostic
prints, the second carrying the command's captured stderr. -/
lemma stepEv_halt_sysExit (w : World) (ev : Ev) (evs : List Ev) (c : Int)
    (h : stepEv w ev = .halt evs (.sysExit c)) :
    c = 1 ∧ ∃ cm cwd, ev = .exec cm cwd ∧ (w.exec cm cwd).returncode ≠ 0 ∧
      evs = [.exec cm cwd,
             .echo ("Error running command: " ++ cm),
             .echo ("Error: " ++ (w.exec cm cwd).stderr)] := by
  cases ev <;> simp only [stepEv, run_command] at h
  case echo m => cases h
  case exec cm cwd =>
    by_cases hr : (w.exec cm cwd).returncode = 0 <;> simp [hr] at h
    exact ⟨h.2.symm, cm, cwd, rfl, hr, h.1.symm⟩
  all_goals
    cases hf : w.fsFail _ <;> rw [hf] at h <;> simp_all

/-- In the all-success world a sequence executes completely and verbatim. -/
lemma runSeq_allOk (ops : List Ev) : runSeq allOk ops = (ops, none) := by
  induction ops with
  | nil => rfl
  | cons ev rest ih => simp [runSeq, stepEv_allOk, ih]

/-- A sequence that did not halt executed verbatim. -/
lemma runSeq_eq_of_none (w : World) (ops : List Ev) (t : List Ev)
    (h : runSeq w ops = (t, none)) : t = ops := by
  induction ops generalizing t with
  | nil => simpa [runSeq] using congrArg Prod.fst h.symm
  | cons ev rest ih =>
    simp only [runSeq] at h
    cases hs : stepEv w ev with
    | emit evs =>
      rw [hs] at h
      simp at h
      have hrest : runSeq w rest = ((runSeq w rest).1, none) := by
        rw [← h.2]
      rw [← h.1, ih _ hrest, stepEv_emit_eq w ev evs hs]
      rfl
    | halt evs hh =>
      rw [hs] at h
      exact absurd (congrArg Prod.snd h) (by simp)

/-- Splitting a sequence at an append. -/
lemma runSeq_append (w : World) (xs ys : List Ev) :
    runSeq w (xs ++ ys) =
      match runSeq w xs with
      | (t, some h) => (t, some h)
      | (t, none) => (t ++ (runSeq w ys).1, (runSeq w ys).2) := by
  induction xs with
  | nil => simp [runSeq]
  | cons ev rest ih =>
    simp only [List.cons_append, runSeq]
    cases hs : stepEv w ev with
    | emit evs =>
      simp only [List.append_eq]
      rw [ih]
      cases hr : runSeq w rest with
      | mk t o =>
        cases o <;> simp [List.append_assoc]
    | halt evs hh => simp

/-- A raised halt of a whole sequence came from a failed filesystem operation
in it, with the message propagated unmodified. -/
lemma runSeq_raised (w : World) (ops : List Ev) (t : List Ev) (e : PyExc)
    (h : runSeq w ops = (t, some (.raised e))) :
    ∃ ev ∈ ops, ∃ m, w.fsFail ev = some m ∧ e = .osError m := by
  induction ops generalizing t with
  | nil => simp [runSeq] at h
  | cons ev rest ih =>
    simp only [runSeq] at h
    cases hs : stepEv w ev with
    | emit evs =>
      rw [hs] at h
      simp at h
      obtain ⟨ev2, hmem, hm⟩ := ih _ (Prod.ext rfl h.2)
      exact ⟨ev2, List.mem_cons_of_mem _ hmem, hm⟩
    | halt evs hh =>
      rw [hs] at h
      simp at h
      obtain ⟨-, m, hm, he⟩ := stepEv_halt_raised w ev evs e (by rw [hs, h.2])
      exact ⟨ev, List.mem_cons_self _ _, m, hm, he⟩

/-- A `sys.exit` halt of a whole sequence has status 1 (it came from
`run_command`). -/
lemma runSeq_sysExit (w : World) (ops : List Ev) (t : List Ev) (c : Int)
    (h : runSeq w ops = (t, some (.sysExit c))) : c = 1 := by
  induction ops generalizing t with
  | nil => simp [runSeq] at h
  | cons ev rest ih =>
    simp only [runSeq] at h
    cases hs : stepEv w ev with
    | emit evs =>
      rw [hs] at h
      simp at h
      exact ih _ (Prod.ext rfl h.2)
    | halt evs hh =>
      rw [hs] at h
      simp at h
      exact (stepEv_halt_sysExit w ev evs c (by rw [hs, h.2])).1

/-! ### Replaying a materialization twice yields the same file contents -/

/-- The effect of one event on the content of one fixed path `q`. -/
def evStep (q : String) (o : Option String) : Ev → Option String
  | .write p c => if q = p then some c else o
  | .touch p => if q = p then some (o.getD "") else o
  | _ => o

lemma applyEv_apply (fs : FileSys) (ev : Ev) (q : String) :
    applyEv fs ev q = evStep q (fs q) ev := by
  cases ev <;> simp only [applyEv, evStep]
  case touch p =>
    by_cases h : q = p <;> simp [h]

lemma applyTrace_apply (t : List Ev) (fs : FileSys) (q : String) :
    applyTrace fs t q = t.foldl (evStep q) (fs q) := by
  induction t generalizing fs with
  | nil => rfl
  | cons ev rest ih =>
    show applyTrace (applyEv fs ev) rest q = _
    rw [ih, applyEv_apply]
    rfl

/-- At one path, replaying a trace is the identity, a "create empty unless
present" step, or a constant — in each case an idempotent map. -/
lemma foldl_evStep_cases (t : List Ev) (q : String) :
    (∀ o, t.foldl (evStep q) o = o)
    ∨ (∀ o, t.foldl (evStep q) o = some (o.getD ""))
    ∨ (∃ v, ∀ o, t.foldl (evStep q) o = some v) := by
  induction t with
  | nil => exact Or.inl fun o => rfl
  | cons ev rest ih =>
    have step : ∀ o, (ev :: rest).foldl (evStep q) o = rest.foldl (evStep q) (evStep q o ev) :=
      fun o => rfl
    cases ev with
    | write p c =>
      by_cases hq : q = p
      · refine Or.inr (Or.inr ?_)
        rcases ih with h | h | ⟨v, h⟩
        · exact ⟨c, fun o => by rw [step, evStep, if_pos hq, h]⟩
        · exact ⟨c, fun o => by rw [step, evStep, if_pos hq, h]; rfl⟩
        · exact ⟨v, fun o => by rw [step, evStep, if_pos hq, h]⟩
      · rcases ih with h | h | ⟨v, h⟩
        · exact Or.inl fun o => by rw [step, evStep, if_neg hq, h]
        · exact Or.inr (Or.inl fun o => by rw [step, evStep, if_neg hq, h])
        · exact Or.inr (Or.inr ⟨v, fun o => by rw [step, evStep, if_neg hq, h]⟩)
    | touch p =>
      by_cases hq : q = p
      · rcases ih with h | h | ⟨v, h⟩
        · exact Or.inr (Or.inl fun o => by rw [step, evStep, if_pos hq, h])
        · exact Or.inr (Or.inl fun o => by rw [step, evStep, if_pos hq, h]; rfl)
        · exact Or.inr (Or.inr ⟨v, fun o => by rw [step, evStep, if_pos hq, h]⟩)
      · rcases ih with h | h | ⟨v, h⟩
        · exact Or.inl fun o => by rw [step, evStep, if_neg hq, h]
        · exact Or.inr (Or.inl fun o => by rw [step, evStep, if_neg hq, h])
        · exact Or.inr (Or.inr ⟨v, fun o => by rw [step, evStep, if_neg hq, h]⟩)
    | mkdirp p => exact ih
    | mkdir p => exact ih
    | chmod p m => exact ih
    | venvCreate p => exact ih
    | exec c cwd => exact ih
    | echo m => exact ih

/-- Replaying the same trace a second time changes nothing: a re-run
overwrites every file it wrote with the same bytes. -/
theorem applyTrace_idem (fs : FileSys) (t : List Ev) :
    applyTrace (applyTrace fs t) t = applyTrace fs t := by
  funext q
  rw [applyTrace_apply, applyTrace_apply]
  rcases foldl_evStep_cases t q with h | h | ⟨v, h⟩ <;> simp [h]


/-! ### The template constants, transcribed from the two template modules -/

namespace Django

/-- Literal template constant `SETTINGS_TEMPLATE` from the source module. -/
def SETTINGS_TEMPLATE : String := "from pathlib import Path\nimport os
from datetime import timedelta

# Build paths inside the project like this: BASE_DIR / 'subdir'.
BASE_DIR = Path(__file__).resolve().parent.parent

# SECURITY WARNING: keep the secret key used in production secret!
SECRET_KEY = 'django-insecure-your-secret-key-here'

# SECURITY WARNING: don't run with debug turned on in production!
DEBUG = True

ALLOWED_HOSTS = []

# Application definition
INSTALLED_APPS = [
    'django.contrib.admin',
    'django.contrib.auth',
    'django.contrib.contenttypes',
    'django.contrib.sessions',
    'django.contrib.messages',
    'django.contrib.staticfiles',
    'rest_framework',
    'corsheaders',
    'usecase1.apps.Usecase1Config',
    'usecase2.apps.Usecase2Config',
]

MIDDLEWARE = [
    'django.middleware.security.SecurityMiddleware',
    'django.contrib.sessions.middleware.SessionMiddleware',
    'corsheaders.middleware.CorsMiddleware',
    'django.middleware.common.CommonMiddleware',
    'django.middleware.csrf.CsrfViewMiddleware',
    'django.contrib.auth.middleware.AuthenticationMiddleware',
    'django.contrib.messages.middleware.MessageMiddleware',
    'django.middleware.clickjacking.XFrameOptionsMiddleware',
]

ROOT_URLCONF = 'config.urls'

TEMPLATES = [
    \x7b
        'BACKEND': 'django.template.backends.django.DjangoTemplates',
        'DIRS': [],
        'APP_DIRS': True,
        'OPTIONS': \x7b
            'context_processors': [
                'django.template.context_processors.debug',
                'django.template.context_processors.request',
                'django.contrib.auth.context_processors.auth',
                'django.contrib.messages.context_processors.messages',
            ],
        \x7d,
    \x7d,
]

WSGI_APPLICATION = 'config.wsgi.application'

# Database
DATABASES = \x7b
    'default': \x7b
        'ENGINE': 'django.db.backends.sqlite3',
        'NAME': BASE_DIR / 'db.sqlite3',
    \x7d
\x7d

# Password validation
AUTH_PASSWORD_VALIDATORS = [
    \x7b
        'NAME': 'django.contrib.auth.password_validation.UserAttributeSimilarityValidator',
    \x7d,
    \x7b
        'NAME': 'django.contrib.auth.password_validation.MinimumLengthValidator',
    \x7d,
    \x7b
        'NAME': 'django.contrib.auth.password_validation.CommonPasswordValidator',
    \x7d,
    \x7b
        'NAME': 'django.contrib.auth.password_validation.NumericPasswordValidator',
    \x7d,
]

# Internationalization
LANGUAGE_CODE = 'en-us'
TIME_ZONE = 'UTC'
USE_I18N = True
USE_TZ = True

# Static files (CSS, JavaScript, Images)
STATIC_URL = 'static/'
STATIC_ROOT = BASE_DIR / 'staticfiles'
MEDIA_URL = 'media/'
MEDIA_ROOT = BASE_DIR / 'media'

# Default primary key field type
DEFAULT_AUTO_FIELD = 'django.db.models.BigAutoField'

# REST Framework settings
REST_FRAMEWORK = \x7b
    'DEFAULT_PERMISSION_CLASSES': [
        'rest_framework.permissions.IsAuthenticated',
    ],
    'DEFAULT_AUTHENTICATION_CLASSES': [
        'rest_framework_simplejwt.authentication.JWTAuthentication',
    ],
    'DEFAULT_PAGINATION_CLASS': 'rest_framework.pagination.PageNumberPagination',
    'PAGE_SIZE': 10,
\x7d

# CORS settings
CORS_ALLOW_ALL_ORIGINS = DEBUG
"

/-- Literal template constant `URLS_TEMPLATE` from the source module. -/
def URLS_TEMPLATE : String := "from django.contrib import admin
from django.urls import path, include
from django.conf import settings
from django.conf.urls.static import static

urlpatterns = [
    path('admin/', admin.site.urls),
    path('api/v1/usecase1/', include('usecase1.urls')),
    path('api/v1/usecase2/', include('usecase2.urls')),
] + static(settings.MEDIA_URL, document_root=settings.MEDIA_ROOT)
"

/-- Literal template constant `WSGI_TEMPLATE` from the source module. -/
def WSGI_TEMPLATE : String := "import os
from django.core.wsgi import get_wsgi_application

os.environ.setdefault('DJANGO_SETTINGS_MODULE', 'config.settings')
application = get_wsgi_application()
"

/-- Literal template constant `ASGI_TEMPLATE` from the source module. -/
def ASGI_TEMPLATE : String := "import os
from django.core.asgi import get_asgi_application

os.environ.setdefault('DJANGO_SETTINGS_MODULE', 'config.settings')
application = get_asgi_application()
"

/-- Literal template constant `MANAGE_TEMPLATE` from the source module. -/
def MANAGE_TEMPLATE : String := "#!/usr/bin/env python\nimport os\nimport sys

def main():
    os.environ.setdefault('DJANGO_SETTINGS_MODULE', 'config.settings')
    try:
        from django.core.management import execute_from_command_line
    except ImportError as exc:
        raise ImportError(
            \"Couldn't import Django. Are you sure it's installed?\"
        ) from exc
    execute_from_command_line(sys.argv)

if __name__ == '__main__':
    main()
"

/-- Literal template constant `APP_MODELS_TEMPLATE` from the source module. -/
def APP_MODELS_TEMPLATE : String := "from django.db import models
from django.utils import timezone

class BaseModel(models.Model):
    created_at = models.DateTimeField(auto_now_add=True)
    updated_at = models.DateTimeField(auto_now=True)

    class Meta:
        abstract = True

class Item(BaseModel):
    name = models.CharField(max_length=255)
    description = models.TextField(blank=True)
    is_active = models.BooleanField(default=True)

    def __str__(self):
        return self.name

    class Meta:
        ordering = ['-created_at']
"

/-- Literal template constant `APP_SERIALIZERS_TEMPLATE` from the source module. -/
def APP_SERIALIZERS_TEMPLATE : String := "from rest_framework import serializers
from .models import Item

class ItemSerializer(serializers.ModelSerializer):
    class Meta:
        model = Item
        fields = ['id', 'name', 'description', 'is_active', 'created_at', 'updated_at']
        read_only_fields = ['created_at', 'updated_at']
"

/-- Literal template constant `APP_VIEWS_TEMPLATE` from the source module. -/
def APP_VIEWS_TEMPLATE : String := "from rest_framework import viewsets
from rest_framework.permissions import IsAuthenticated
from .models import Item
from .serializers import ItemSerializer

class ItemViewSet(viewsets.ModelViewSet):
    queryset = Item.objects.all()
    serializer_class = ItemSerializer
    permission_classes = [IsAuthenticated]
    
    def get_queryset(self):
        return self.queryset.filter(is_active=True)
"

/-- Literal template constant `APP_URLS_TEMPLATE` from the source module. -/
def APP_URLS_TEMPLATE : String := "from django.urls import path, include
from rest_framework.routers import DefaultRouter
from .views import ItemViewSet

router = DefaultRouter()
router.register('items', ItemViewSet)

urlpatterns = [
    path('', include(router.urls)),
]
"

/-- Literal template constant `APP_ADMIN_TEMPLATE` from the source module. -/
def APP_ADMIN_TEMPLATE : String := "from django.contrib import admin
from .models import Item

@admin.register(Item)
class ItemAdmin(admin.ModelAdmin):
    list_display = ['name', 'is_active', 'created_at', 'updated_at']
    list_filter = ['is_active', 'created_at']
    search_fields = ['name', 'description']
"

/-- Literal template constant `APP_TESTS_TEMPLATE` from the source module. -/
def APP_TESTS_TEMPLATE : String := "from django.test import TestCase
from django.urls import reverse
from rest_framework import status
from rest_framework.test import APITestCase
from .models import Item

class ItemTests(APITestCase):
    def setUp(self):
        self.item_data = \x7b
            'name': 'Test Item',
            'description': 'Test Description',
            'is_active': True
        \x7d
        
    def test_create_item(self):
        url = reverse('item-list')
        response = self.client.post(url, self.item_data, format='json')
        self.assertEqual(response.status_code, status.HTTP_201_CREATED)
        self.assertEqual(Item.objects.count(), 1)
        self.assertEqual(Item.objects.get().name, 'Test Item')
"

/-- Literal template constant `REQUIREMENTS_TEMPLATE` from the source module. -/
def REQUIREMENTS_TEMPLATE : String := "Django>=4.2.0,<5.0.0
djangorestframework>=3.14.0,<4.0.0
django-cors-headers>=4.0.0,<5.0.0
djangorestframework-simplejwt>=5.2.0,<6.0.0
python-dotenv>=1.0.0,<2.0.0
pytest>=7.3.1,<8.0.0
pytest-django>=4.5.2,<5.0.0
"

/-- Literal template constant `ENV_TEMPLATE` from the source module. -/
def ENV_TEMPLATE : String := "DEBUG=True
SECRET_KEY=your-secret-key-here
DATABASE_URL=sqlite:///db.sqlite3
ALLOWED_HOSTS=localhost,127.0.0.1
"

/-- Literal template constant `GITIGNORE_TEMPLATE` from the source module. -/
def GITIGNORE_TEMPLATE : String := "# Python
__pycache__/
*.py[cod]
*$py.class
*.so
.Python
build/
develop-eggs/
dist/
downloads/
eggs/
.eggs/
lib/
lib64/
parts/
sdist/
var/
wheels/
*.egg-info/
.installed.cfg
*.egg

# Django
*.log
local_settings.py
db.sqlite3
db.sqlite3-journal
media/
staticfiles/

# Virtual Environment
venv/
.env

# IDE
.idea/
.vscode/
*.swp
*.swo

# Testing
.coverage
htmlcov/
.pytest_cache/
"

/-- Literal chunk of `README_TEMPLATE`: the text before the title placeholder. -/
def READMEpart0 : String := "# "

/-- The text of `README_TEMPLATE` strictly between the newline after the title
placeholder and the newline before the structure-diagram placeholder. -/
def READMEpart1mid : String := "
A Django REST Framework project with a clean architecture and best practices.

## Features

- Django REST Framework
- JWT Authentication
- Modular app structure
- API versioning
- CORS support
- Testing setup
- Environment configuration

## Project Structure
"

/-- Literal chunk of `README_TEMPLATE` between the two placeholders (it starts
and ends with a newline, written out so the line structure is explicit). -/
def READMEpart1 : String := "\n" ++ READMEpart1mid ++ "\n"

/-- The text of `README_TEMPLATE` after the `/` and newline that follow the
structure-diagram placeholder. -/
def READMEpart2rest : String := "├── config/             # Project configuration
├── usecase1/          # First app
├── usecase2/          # Second app
├── manage.py          # Django management script
├── requirements.txt   # Project dependencies
└── .env              # Environment variables

## Setup

1. Create virtual environment:

    ```bash
    python -m venv venv
    source venv/bin/activate  # On Windows: venv\\Scripts\\activate
    ```

2. Install dependencies:

    ```bash
    pip install -r requirements.txt
    ```

3. Run migrations:

    ```bash
    python manage.py migrate
    ```

4. Create superuser:

    ```bash
    python manage.py createsuperuser
    ```

5. Run the development server:

    ```bash
    python manage.py runserver
    ```

## API Endpoints

- Admin interface: http://localhost:8000/admin/
- API v1: http://localhost:8000/api/v1/
- Swagger Documentation: http://localhost:8000/api/schema/swagger-ui/
- ReDoc Documentation: http://localhost:8000/api/schema/redoc/

## Testing

Run tests with:

    ```bash
    python manage.py test
    ```

Run tests with coverage:

    ```bash
    coverage run manage.py test
    coverage report
    ```

## Development

1. Make migrations:

    ```bash
    python manage.py makemigrations
    ```

2. Apply migrations:

    ```bash
    python manage.py migrate
    ```

3. Create new app:

    ```bash
    python manage.py startapp new_app
    ```

## Project Commands

### Data Management

    ```bash
    # Create database backup
    python manage.py dumpdata > backup.json

    # Load data from backup
    python manage.py loaddata backup.json

    # Clear database
    python manage.py flush
    ```

### Static Files

    ```bash
    # Collect static files
    python manage.py collectstatic

    # Clear static files
    python manage.py collectstatic --clear
    ```

## Deployment Checklist

1. Update `ALLOWED_HOSTS` in settings
2. Set `DEBUG = False` in production
3. Configure production database
4. Set up static files serving
5. Configure HTTPS
6. Set up proper email backend
7. Configure caching
8. Set up monitoring

## Environment Variables

Create a `.env` file in the project root:

    ```bash
    DEBUG=True
    SECRET_KEY=your-secret-key-here
    DATABASE_URL=sqlite:///db.sqlite3
    ALLOWED_HOSTS=localhost,127.0.0.1
    ```

## Dependencies

- Django
- Django REST Framework
- Django CORS Headers
- Django REST Framework SimpleJWT
- Python Dotenv
- Pytest Django
- Coverage

## License

This project is licensed under the MIT License.
"

/-- Literal chunk of `README_TEMPLATE` after the second placeholder: the slash
and line break of the diagram line, then the rest. -/
def READMEpart2 : String := "/\n" ++ READMEpart2rest

/-- Template constant `README_TEMPLATE` from the source module: the literal chunks
joined by the `\x7bproject_name\x7d` placeholder, exactly as in the source. -/
def README_TEMPLATE : String := READMEpart0 ++ "\x7bproject_name\x7d" ++ READMEpart1 ++ "\x7bproject_name\x7d" ++ READMEpart2

end Django

namespace FastApi

/-- The `COMMON_FILES` dict from the source module, as an association list in
insertion order (Python 3.7+ dicts iterate in insertion order). -/
def COMMON_FILES : List (String × String) := [
  ("base_models.py",
   "from sqlalchemy.ext.declarative import declarative_base
from sqlalchemy import Column, Integer, DateTime
from datetime import datetime

Base = declarative_base()

class BaseModel(Base):
    __abstract__ = True
    
    id = Column(Integer, primary_key=True, index=True)
    created_at = Column(DateTime, default=datetime.utcnow)
    updated_at = Column(DateTime, default=datetime.utcnow, onupdate=datetime.utcnow)
"),
  ("config.py",
   "from pydantic_settings import BaseSettings
from functools import lru_cache

class Settings(BaseSettings):
    DATABASE_URL: str = \"sqlite:///./sql_app.db\"
    DEBUG: bool = False
    API_V1_STR: str = \"/api/v1\"
    PROJECT_NAME: str = \"FastAPI Project\"
    
    class Config:
        env_file = \".env\"

@lru_cache()
def get_settings():
    return Settings()

settings = get_settings()
"),
  ("database.py",
   "from sqlalchemy import create_engine
from sqlalchemy.orm import sessionmaker, Session
from .config import settings

engine = create_engine(
    settings.DATABASE_URL,
    pool_pre_ping=True,
    echo=settings.DEBUG
)
SessionLocal = sessionmaker(autocommit=False, autoflush=False, bind=engine)

def get_db() -> Session:
    db = SessionLocal()
    try:
        yield db
    finally:
        db.close()
"),
  ("exceptions.py",
   "from fastapi import HTTPException
from typing import Any, Dict, Optional

class BaseAPIException(HTTPException):
    def __init__(
        self,
        status_code: int,
        message: str,
        details: Optional[Dict[str, Any]] = None
    ):
        super().__init__(
            status_code=status_code,
            detail=\x7b
                \"message\": message,
                \"details\": details or \x7b\x7d
            \x7d
        )

class NotFoundException(BaseAPIException):
    def __init__(self, message: str = \"Resource not found\", details: Optional[Dict[str, Any]] = None):
        super().__init__(status_code=404, message=message, details=details)

class BadRequestException(BaseAPIException):
    def __init__(self, message: str = \"Bad request\", details: Optional[Dict[str, Any]] = None):
        super().__init__(status_code=400, message=message, details=details)

class UnauthorizedException(BaseAPIException):
    def __init__(self, message: str = \"Unauthorized\", details: Optional[Dict[str, Any]] = None):
        super().__init__(status_code=401, message=message, details=details)
"),
  ("router.py",
   "from fastapi import APIRouter
from ..usecase1.routers import router as usecase1_router
from ..usecase2.routers import router as usecase2_router
from .config import settings

main_router = APIRouter(prefix=settings.API_V1_STR)

main_router.include_router(
    usecase1_router,
    prefix=\"/usecase1\",
    tags=[\"usecase1\"]
)

main_router.include_router(
    usecase2_router,
    prefix=\"/usecase2\",
    tags=[\"usecase2\"]
)
"),
  ("utils.py",
   "from datetime import datetime, timezone
from typing import Any, Dict, List
from sqlalchemy.orm import Query
from fastapi import Query as FastAPIQuery

def utc_now() -> datetime:
    return datetime.now(timezone.utc)

def format_datetime(dt: datetime) -> str:
    return dt.isoformat()

def paginate(
    query: Query,
    page: int = FastAPIQuery(1, ge=1),
    page_size: int = FastAPIQuery(10, ge=1, le=100)
) -> Dict[str, Any]:
    total = query.count()
    items = query.offset((page - 1) * page_size).limit(page_size).all()
    
    return \x7b
        \"items\": items,
        \"total\": total,
        \"page\": page,
        \"page_size\": page_size,
        \"pages\": (total + page_size - 1) // page_size
    \x7d
")]

/-- The `USECASE_FILES` dict from the source module, as an association list in
insertion order (Python 3.7+ dicts iterate in insertion order). -/
def USECASE_FILES : List (String × String) := [
  ("constants.py",
   "# Pagination
DEFAULT_PAGE_SIZE = 10
MAX_PAGE_SIZE = 100

# Cache
CACHE_TTL = 3600  # 1 hour

# Rate Limiting
RATE_LIMIT_CALLS = 100
RATE_LIMIT_PERIOD = 3600  # 1 hour
"),
  ("dependencies.py",
   "from fastapi import Depends, Request
from sqlalchemy.orm import Session
from ..common.database import get_db
from ..common.exceptions import UnauthorizedException

def get_db_session():
    return Depends(get_db)

async def verify_api_key(request: Request):
    api_key = request.headers.get(\"X-API-Key\")
    if not api_key:
        raise UnauthorizedException(\"API key is required\")
    # Add your API key validation logic here
    return api_key
"),
  ("models.py",
   "from sqlalchemy import Column, String, Text, Boolean
from ..common.base_models import Base, BaseModel

class Item(BaseModel):
    __tablename__ = \"items\"
    
    name = Column(String(255), index=True, nullable=False)
    description = Column(Text, nullable=True)
    is_active = Column(Boolean, default=True)

    def __repr__(self):
        return f\"<Item \x7bself.name\x7d>\"
"),
  ("schemas.py",
   "from pydantic import BaseModel, Field
from datetime import datetime
from typing import Optional, List

class ItemBase(BaseModel):
    name: str = Field(..., min_length=1, max_length=255)
    description: Optional[str] = None
    is_active: bool = True

class ItemCreate(ItemBase):
    pass

class ItemUpdate(ItemBase):
    name: Optional[str] = Field(None, min_length=1, max_length=255)
    is_active: Optional[bool] = None

class ItemResponse(ItemBase):
    id: int
    created_at: datetime
    updated_at: datetime

    class Config:
        from_attributes = True

class PaginatedResponse(BaseModel):
    items: List[ItemResponse]
    total: int
    page: int
    page_size: int
    pages: int
"),
  ("services.py",
   "from sqlalchemy.orm import Session
from . import models, schemas
from ..common.exceptions import NotFoundException
from typing import Optional, List

class ItemService:
    def __init__(self, db: Session):
        self.db = db

    async def create(self, item: schemas.ItemCreate) -> models.Item:
        db_item = models.Item(**item.dict())
        self.db.add(db_item)
        self.db.commit()
        self.db.refresh(db_item)
        return db_item

    async def get_by_id(self, item_id: int) -> Optional[models.Item]:
        item = self.db.query(models.Item).filter(models.Item.id == item_id).first()
        if not item:
            raise NotFoundException(f\"Item with id \x7bitem_id\x7d not found\")
        return item

    async def get_all(self) -> List[models.Item]:
        return self.db.query(models.Item).filter(models.Item.is_active == True).all()

    async def update(self, item_id: int, item_data: schemas.ItemUpdate) -> models.Item:
        db_item = await self.get_by_id(item_id)
        for field, value in item_data.dict(exclude_unset=True).items():
            setattr(db_item, field, value)
        self.db.commit()
        self.db.refresh(db_item)
        return db_item

    async def delete(self, item_id: int) -> None:
        db_item = await self.get_by_id(item_id)
        self.db.delete(db_item)
        self.db.commit()
"),
  ("routers.py",
   "from fastapi import APIRouter, Depends, Query
from sqlalchemy.orm import Session
from . import schemas, services
from .dependencies import get_db_session, verify_api_key
from ..common.utils import paginate
from typing import List

router = APIRouter()

@router.post(
    \"/\",
    response_model=schemas.ItemResponse,
    status_code=201,
    dependencies=[Depends(verify_api_key)]
)
async def create_item(
    item: schemas.ItemCreate,
    db: Session = Depends(get_db_session)
):
    \"\"\"Create a new item\"\"\"
    service = services.ItemService(db)
    return await service.create(item)

@router.get(
    \"/\",
    response_model=schemas.PaginatedResponse
)
async def list_items(
    db: Session = Depends(get_db_session),
    page: int = Query(1, ge=1),
    page_size: int = Query(10, ge=1, le=100)
):
    \"\"\"List all items with pagination\"\"\"
    service = services.ItemService(db)
    query = db.query(services.models.Item)
    return paginate(query, page, page_size)

@router.get(
    \"/\x7bitem_id\x7d\",
    response_model=schemas.ItemResponse
)
async def get_item(
    item_id: int,
    db: Session = Depends(get_db_session)
):
    \"\"\"Get a specific item by ID\"\"\"
    service = services.ItemService(db)
    return await service.get_by_id(item_id)

@router.put(
    \"/\x7bitem_id\x7d\",
    response_model=schemas.ItemResponse,
    dependencies=[Depends(verify_api_key)]
)
async def update_item(
    item_id: int,
    item: schemas.ItemUpdate,
    db: Session = Depends(get_db_session)
):
    \"\"\"Update an item\"\"\"
    service = services.ItemService(db)
    return await service.update(item_id, item)

@router.delete(
    \"/\x7bitem_id\x7d\",
    status_code=204,
    dependencies=[Depends(verify_api_key)]
)
async def delete_item(
    item_id: int,
    db: Session = Depends(get_db_session)
):
    \"\"\"Delete an item\"\"\"
    service = services.ItemService(db)
    await service.delete(item_id)
")]

/-- The `TEST_FILES` dict from the source module, as an association list in
insertion order (Python 3.7+ dicts iterate in insertion order). -/
def TEST_FILES : List (String × String) := [
  ("conftest.py",
   "import pytest
from fastapi.testclient import TestClient
from sqlalchemy import create_engine
from sqlalchemy.orm import sessionmaker
from src.common.database import get_db
from src.common.base_models import Base
from main import app

SQLALCHEMY_DATABASE_URL = \"sqlite:///./test.db\"

engine = create_engine(
    SQLALCHEMY_DATABASE_URL,
    connect_args=\x7b\"check_same_thread\": False\x7d
)
TestingSessionLocal = sessionmaker(autocommit=False, autoflush=False, bind=engine)

@pytest.fixture(scope=\"function\")
def test_db():
    Base.metadata.create_all(bind=engine)
    try:
        db = TestingSessionLocal()
        yield db
    finally:
        db.close()
        Base.metadata.drop_all(bind=engine)

@pytest.fixture(scope=\"function\")
def client(test_db):
    def override_get_db():
        try:
            yield test_db
        finally:
            test_db.close()
    
    app.dependency_overrides[get_db] = override_get_db
    yield TestClient(app)
    app.dependency_overrides.clear()

@pytest.fixture(scope=\"function\")
def api_key_headers():
    return \x7b\"X-API-Key\": \"test_api_key\"\x7d
")]

/-- Literal template constant `MAIN_APP_TEMPLATE` from the source module. -/
def MAIN_APP_TEMPLATE : String := "from fastapi import FastAPI
from fastapi.middleware.cors import CORSMiddleware
from src.common.router import main_router
from src.common.config import settings
from src.common.base_models import Base
from src.common.database import engine

# Create database tables
Base.metadata.create_all(bind=engine)

app = FastAPI(
    title=settings.PROJECT_NAME,
    openapi_url=f\"\x7bsettings.API_V1_STR\x7d/openapi.json\",
    debug=settings.DEBUG
)

# CORS middleware configuration
app.add_middleware(
    CORSMiddleware,
    allow_origins=[\"*\"],
    allow_credentials=True,
    allow_methods=[\"*\"],
    allow_headers=[\"*\"],
)

# Include routers
app.include_router(main_router)

if __name__ == \"__main__\":\n    import uvicorn
    uvicorn.run(
        \"main:app\",
        host=\"0.0.0.0\",
        port=8000,
        reload=settings.DEBUG
    )
"

/-- Literal template constant `ENV_TEMPLATE` from the source module. -/
def ENV_TEMPLATE : String := "# Database
DATABASE_URL=sqlite:///./sql_app.db

# Application
DEBUG=True
PROJECT_NAME=\"FastAPI Project\"
API_V1_STR=\"/api/v1\"

# Security
SECRET_KEY=your-secret-key-here
ACCESS_TOKEN_EXPIRE_MINUTES=30
"

/-- Literal template constant `GITIGNORE_TEMPLATE` from the source module. -/
def GITIGNORE_TEMPLATE : String := "# Python
__pycache__/
*.py[cod]
*$py.class
*.so
.Python
build/
develop-eggs/
dist/
downloads/
eggs/
.eggs/
lib/
lib64/
parts/
sdist/
var/
wheels/
*.egg-info/
.installed.cfg
*.egg

# Django
*.log
local_settings.py
db.sqlite3
db.sqlite3-journal
media/
staticfiles/

# Virtual Environment
venv/
.env

# IDE
.idea/
.vscode/
*.swp
*.swo

# Testing
.coverage
htmlcov/
.pytest_cache/
"

/-- Literal chunk of `SETUP_TEMPLATE`: the text before the project-name placeholder. -/
def SETUPpart0 : String := "from setuptools import setup, find_packages

setup(
    name=\""

/-- Literal chunk of `SETUP_TEMPLATE`: the text between the project-name placeholder
and the first unescaped brace (the `package_dir` value). -/
def SETUPmid : String := "\",
    version=\"0.1.0\",
    packages=find_packages(where=\"src\"),
    package_dir="

/-- Literal chunk of `SETUP_TEMPLATE`: the text after the `package_dir` braces
(it contains the further unescaped `extras_require` braces, never reached). -/
def SETUPtail : String := ",
    install_requires=[
        \"fastapi>=0.100.0\",
        \"uvicorn>=0.22.0\",
        \"sqlalchemy>=2.0.0\",
        \"pydantic>=2.0.0\",
        \"pydantic-settings>=2.0.0\",
        \"python-dotenv>=1.0.0\",
        \"alembic>=1.11.0\",
        \"pytest>=7.4.0\",
        \"httpx>=0.24.0\",
        \"python-jose>=3.3.0\",
        \"passlib>=1.7.4\",
        \"python-multipart>=0.0.6\",
        \"email-validator>=2.0.0\",
    ],
    extras_require=\x7b
        \"dev\": [
            \"black>=23.0.0\",
            \"isort>=5.12.0\",
            \"flake8>=6.0.0\",
            \"pytest-cov>=4.1.0\",
            \"pre-commit>=3.3.0\",
        ]
    \x7d,
    python_requires=\">=3.9\",
)
"

/-- Template constant `SETUP_TEMPLATE` from the source module: the literal chunks
joined by the `\x7bproject_name\x7d` placeholder and the (unescaped, and hence
field-forming) `package_dir=\x7b"": "src"\x7d` braces, exactly as in the source. -/
def SETUP_TEMPLATE : String := SETUPpart0 ++ "\x7bproject_name\x7d" ++ SETUPmid ++ "\x7b\"\": \"src\"\x7d" ++ SETUPtail

/-- Literal chunk of `README_TEMPLATE` (text between project-name placeholders). -/
def READMEpart0 : String := "# "

/-- Literal chunk of `README_TEMPLATE` (text between project-name placeholders). -/
def READMEpart1 : String := "

A FastAPI project with clean architecture and best practices.

## Features

- FastAPI framework
- SQLAlchemy ORM
- Pydantic data validation
- JWT Authentication
- Modular structure
- API versioning
- CORS support
- Testing setup
- Environment configuration
- Dependency injection
- Async support
- OpenAPI documentation

## Project Structure

"

/-- Literal chunk of `README_TEMPLATE` (text between project-name placeholders). -/
def READMEpart2 : String := "/
├── src/
│   ├── common/         # Shared utilities and base classes
│   │   ├── base_models.py
│   │   ├── config.py
│   │   ├── database.py
│   │   ├── exceptions.py
│   │   ├── router.py
│   │   └── utils.py
│   ├── usecase1/       # First usecase implementation
│   │   ├── constants.py
│   │   ├── dependencies.py
│   │   ├── models.py
│   │   ├── schemas.py
│   │   ├── services.py
│   │   └── routers.py
│   └── usecase2/       # Second usecase implementation
│       ├── constants.py
│       ├── dependencies.py
│       ├── models.py
│       ├── schemas.py
│       ├── services.py
│       └── routers.py
├── tests/              # Test directory
├── main.py            # Application entry point
├── setup.py           # Package setup
├── requirements.txt   # Project dependencies
└── .env              # Environment variables

## Setup

1. Create virtual environment:

    ```bash
    python -m venv venv
    source venv/bin/activate  # On Windows: venv\\Scripts\\activate
    ```

2. Install dependencies:

    ```bash
    pip install -e .
    ```

3. Set up environment variables:

    ```bash
    cp .env.example .env
    # Edit .env with your configurations
    ```

4. Run the application:

    ```bash
    python main.py
    ```

## API Documentation

- Swagger UI: http://localhost:8000/docs
- ReDoc: http://localhost:8000/redoc
- OpenAPI JSON: http://localhost:8000/openapi.json

## Testing

Run tests with pytest:

    ```bash
    pytest
    ```

Run tests with coverage:

    ```bash
    pytest --cov=src tests/
    coverage report
    coverage html  # Generate HTML report
    ```

## Development

### Project Commands

1. Run development server with auto-reload:

    ```bash
    uvicorn main:app --reload
    ```

2. Run with custom host and port:

    ```bash
    uvicorn main:app --host 0.0.0.0 --port 8080
    ```

3. Run with workers (production):

    ```bash
    gunicorn main:app -w 4 -k uvicorn.workers.UvicornWorker
    ```

### Database Operations

    ```bash
    # Generate migration
    alembic revision --autogenerate -m \"description\"

    # Apply migrations
    alembic upgrade head

    # Rollback migration
    alembic downgrade -1
    ```

### Code Quality

    ```bash
    # Format code
    black src/ tests/

    # Sort imports
    isort src/ tests/

    # Lint code
    flake8 src/ tests/

    # Type checking
    mypy src/
    ```

## Environment Variables

    ```bash
    # Database
    DATABASE_URL=sqlite:///./sql_app.db

    # Application
    DEBUG=True
    PROJECT_NAME=\"FastAPI Project\"
    API_V1_STR=\"/api/v1\"

    # Security
    SECRET_KEY=your-secret-key-here
    ACCESS_TOKEN_EXPIRE_MINUTES=30

    # CORS
    CORS_ORIGINS=http://localhost:3000,http://localhost:8080
    ```

## Dependencies

Main dependencies:
- FastAPI
- Uvicorn
- SQLAlchemy
- Pydantic
- Alembic
- Python-jose
- Passlib
- Python-multipart
- Pytest
- HTTPx

Development dependencies:
- Black
- isort
- Flake8
- Mypy
- Pytest-cov

## License

This project is licensed under the MIT License - see the [LICENSE](LICENSE) file for details.

## Acknowledgments

- FastAPI Documentation
- SQLAlchemy Documentation
- Pydantic Documentation
- FastAPI Best Practices
"

/-- Template constant `README_TEMPLATE` from the source module: the literal chunks
joined by the `\x7bproject_name\x7d` placeholder, exactly as in the source. -/
def README_TEMPLATE : String := READMEpart0 ++ "\x7bproject_name\x7d" ++ READMEpart1 ++ "\x7bproject_name\x7d" ++ READMEpart2

end FastApi



/-! ### The Django generator (`create_django_project.py`) -/

namespace Django

/-- `create_and_activate_venv(project_path)`: creates the venv under
`project_path / "venv"` and resolves the activation-script, interpreter and
pip paths, branching on `platform.system() == "Windows"`.  The paths are pure
functions of the platform string and the base path: nothing checks that the
binaries exist. -/
def create_and_activate_venv (system project_path : String) :
    List Ev × (String × String × String) :=
  let venv_path := pjoin project_path "venv"
  ([.echo "Creating virtual environment...", .venvCreate venv_path],
   if system = "Windows" then
     (pjoin (pjoin venv_path "Scripts") "activate.bat",
      pjoin (pjoin venv_path "Scripts") "python.exe",
      pjoin (pjoin venv_path "Scripts") "pip.exe")
   else
     (pjoin (pjoin venv_path "bin") "activate",
      pjoin (pjoin venv_path "bin") "python",
      pjoin (pjoin venv_path "bin") "pip"))

/-- `create_django_app(project_path, app_name)`: the app directory, its seven
files, and the migrations package. -/
def create_django_app (project_path app_name : String) : List Ev :=
  let app_path := pjoin project_path app_name
  [.mkdir app_path]
  ++ create_file_with_content (pjoin app_path "__init__.py") ""
  ++ create_file_with_content (pjoin app_path "models.py") APP_MODELS_TEMPLATE
  ++ create_file_with_content (pjoin app_path "serializers.py") APP_SERIALIZERS_TEMPLATE
  ++ create_file_with_content (pjoin app_path "views.py") APP_VIEWS_TEMPLATE
  ++ create_file_with_content (pjoin app_path "urls.py") APP_URLS_TEMPLATE
  ++ create_file_with_content (pjoin app_path "admin.py") APP_ADMIN_TEMPLATE
  ++ create_file_with_content (pjoin app_path "tests.py") APP_TESTS_TEMPLATE
  ++ [.mkdir (pjoin app_path "migrations")]
  ++ create_file_with_content (pjoin (pjoin app_path "migrations") "__init__.py") ""

/-- The effects of `create_project_structure` before the README content is
rendered: config directory and files, `manage.py` and its chmod to `0o755`,
the two apps, and the project-level files. -/
def opsBeforeReadme (project_name : String) : List Ev :=
  let base_path := project_name
  let config_path := pjoin base_path "config"
  [.mkdirp config_path]
  ++ create_file_with_content (pjoin config_path "__init__.py") ""
  ++ create_file_with_content (pjoin config_path "settings.py") SETTINGS_TEMPLATE
  ++ create_file_with_content (pjoin config_path "urls.py") URLS_TEMPLATE
  ++ create_file_with_content (pjoin config_path "wsgi.py") WSGI_TEMPLATE
  ++ create_file_with_content (pjoin config_path "asgi.py") ASGI_TEMPLATE
  ++ create_file_with_content (pjoin base_path "manage.py") MANAGE_TEMPLATE
  ++ [.chmod (pjoin base_path "manage.py") 0o755]
  ++ create_django_app base_path "usecase1"
  ++ create_django_app base_path "usecase2"
  ++ create_file_with_content (pjoin base_path "requirements.txt") REQUIREMENTS_TEMPLATE
  ++ create_file_with_content (pjoin base_path ".env") ENV_TEMPLATE
  ++ create_file_with_content (pjoin base_path ".gitignore") GITIGNORE_TEMPLATE

/-- The effects from the README write to the end of the run: git init, venv
creation, pip upgrade, dependency install, schema migration. -/
def opsFromReadme (system project_name readme : String) : List Ev :=
  let base_path := project_name
  let venv := create_and_activate_venv system base_path
  create_file_with_content (pjoin base_path "README.md") readme
  ++ [.echo "Initializing git repository...",
      .exec "git init" (pathStr base_path),
      .echo "Setting up virtual environment..."]
  ++ venv.1
  ++ [.echo "Installing dependencies...",
      .exec ("\"" ++ venv.2.2.2 ++ "\" install --upgrade pip") (pathStr base_path),
      .exec ("\"" ++ venv.2.2.2 ++ "\" install -r requirements.txt") (pathStr base_path),
      .echo "Initializing Django project...",
      .exec ("\"" ++ venv.2.2.1 ++ "\" manage.py migrate") (pathStr base_path)]

/-- `create_project_structure(project_name)`: the straight-line run, split at
the evaluation of `README_TEMPLATE.format(project_name=...)` (the only point
of this generator where a formatting exception could interrupt the
sequence). -/
def create_project_structure (w : World) (system project_name : String) :
    List Ev × Outcome :=
  match runSeq w (opsBeforeReadme project_name) with
  | (t1, some h) => (t1, h.toOutcome)
  | (t1, none) =>
    match pyFormat README_TEMPLATE project_name with
    | .error e => (t1, .raised e)
    | .ok readme =>
      match runSeq w (opsFromReadme system project_name readme) with
      | (t2, some h) => (t1 ++ t2, h.toOutcome)
      | (t2, none) =>
        (t1 ++ t2, .success (create_and_activate_venv system project_name).2.1)

/-- The success banner printed by `main` (an f-string in the source). -/
def successMsg (project_name activate_cmd : String) : String :=
  "\nProject " ++ project_name
  ++ " created successfully!\n\nYour virtual environment has been created and dependencies installed.\n\nTo activate the virtual environment:\n"
  ++ activate_cmd
  ++ "\n\nTo run the development server:\ncd " ++ project_name
  ++ "\npython manage.py runserver\n\nYour API will be available at:\n- Admin interface: http://localhost:8000/admin/\n- API v1: http://localhost:8000/api/v1/\n- API Documentation: http://localhost:8000/api/schema/swagger-ui/\n\nHappy coding! \u00f0\u0178\u0161\u20ac\n"

/-- `main()` of `create_django_project.py`: argument-count check, the run in a
`try` whose `except Exception` prints the error and exits 1; `sys.exit` from
`run_command` is a `SystemExit`, which `except Exception` does not catch, so
its status propagates. -/
def main (w : World) (system : String) (argv : List String) : List Ev × Int :=
  match argv with
  | [_, project_name] =>
    let pre := [Ev.echo ("Creating new Django project: " ++ project_name)]
    match create_project_structure w system project_name with
    | (t, .success activate_script) =>
      let activate_cmd := if system = "Windows" then activate_script
                          else "source " ++ activate_script
      (pre ++ t ++ [.echo (successMsg project_name activate_cmd)], 0)
    | (t, .sysExit c) => (pre ++ t, c)
    | (t, .raised e) =>
      (pre ++ t ++ [.echo ("Error creating project: " ++ e.toMsg)], 1)
  | _ => ([.echo "Usage: python create_django_project.py project_name"], 1)

end Django

/-! ### The FastAPI generator (`create_fast_api_project.py`) -/

namespace FastApi

/-- `create_and_activate_venv(project_path)`: identical to the Django
generator's copy. -/
def create_and_activate_venv (system project_path : String) :
    List Ev × (String × String × String) :=
  let venv_path := pjoin project_path "venv"
  ([.echo "Creating virtual environment...", .venvCreate venv_path],
   if system = "Windows" then
     (pjoin (pjoin venv_path "Scripts") "activate.bat",
      pjoin (pjoin venv_path "Scripts") "python.exe",
      pjoin (pjoin venv_path "Scripts") "pip.exe")
   else
     (pjoin (pjoin venv_path "bin") "activate",
      pjoin (pjoin venv_path "bin") "python",
      pjoin (pjoin venv_path "bin") "pip"))

/-- The per-usecase `test_routes.py` content (an f-string in the source; its
doubled braces render as literal braces). -/
def test_routes_content (usecase : String) : String :=
  "import pytest\nfrom fastapi.testclient import TestClient\n\ndef test_" ++ usecase
  ++ "_create_item(client):\n    response = client.post(\n        \"/" ++ usecase
  ++ "/items/\",\n        json=\x7b\"name\": \"test item\", \"description\": \"test description\"\x7d\n    )\n    assert response.status_code == 200\n    assert response.json()[\"name\"] == \"test item\"\n"

/-- The effects of `create_project_structure` before the setup.py content is
rendered: the directory/`__init__.py` skeleton, the common, usecase and test
files, the per-usecase `test_routes.py`, and `main.py`. -/
def opsBeforeSetup (project_name : String) : List Ev :=
  let base_path := project_name
  let directories := [
    pjoin (pjoin base_path "src") "common",
    pjoin (pjoin base_path "src") "usecase1",
    pjoin (pjoin base_path "src") "usecase2",
    pjoin (pjoin base_path "tests") "test_usecase1",
    pjoin (pjoin base_path "tests") "test_usecase2"]
  [Ev.echo "Creating project structure..."]
  ++ (directories.map (fun d => [Ev.mkdirp d, Ev.touch (pjoin d "__init__.py")])).flatten
  ++ [Ev.echo "Creating common module files..."]
  ++ (COMMON_FILES.map (fun fc =>
        create_file_with_content (pjoin (pjoin (pjoin base_path "src") "common") fc.1) fc.2)).flatten
  ++ [Ev.echo "Creating usecase files..."]
  ++ ((["usecase1", "usecase2"].map (fun usecase =>
        (USECASE_FILES.map (fun fc =>
          create_file_with_content (pjoin (pjoin (pjoin base_path "src") usecase) fc.1) fc.2)).flatten)).flatten)
  ++ [Ev.echo "Creating test files..."]
  ++ (TEST_FILES.map (fun fc =>
        create_file_with_content (pjoin (pjoin base_path "tests") fc.1) fc.2)).flatten
  ++ ((["usecase1", "usecase2"].map (fun usecase =>
        create_file_with_content
          (pjoin (pjoin (pjoin base_path "tests") ("test_" ++ usecase)) "test_routes.py")
          (test_routes_content usecase))).flatten)
  ++ [Ev.echo "Creating main application files..."]
  ++ create_file_with_content (pjoin base_path "main.py") MAIN_APP_TEMPLATE

/-- The effects between the setup.py write and the README rendering. -/
def opsFromSetup (project_name setup_content : String) : List Ev :=
  create_file_with_content (pjoin project_name "setup.py") setup_content
  ++ create_file_with_content (pjoin project_name ".env") ENV_TEMPLATE
  ++ create_file_with_content (pjoin project_name ".gitignore") GITIGNORE_TEMPLATE

/-- The effects from the README write to the end of the run: git init, venv
creation, pip upgrade, editable install. -/
def opsFromReadme (system project_name readme : String) : List Ev :=
  let venv := create_and_activate_venv system project_name
  create_file_with_content (pjoin project_name "README.md") readme
  ++ [.echo "Initializing git repository...",
      .exec "git init" (pathStr project_name),
      .echo "Setting up virtual environment..."]
  ++ venv.1
  ++ [.echo "Installing dependencies...",
      .exec ("\"" ++ venv.2.2.2 ++ "\" install --upgrade pip") (pathStr project_name),
      .exec ("\"" ++ venv.2.2.2 ++ "\" install -e .") (pathStr project_name)]

/-- `create_project_structure(project_name)`: the straight-line run, split at
the two `str.format` calls (`SETUP_TEMPLATE` and `README_TEMPLATE`), each of
which can raise before its file is written. -/
def create_project_structure (w : World) (system project_name : String) :
    List Ev × Outcome :=
  match runSeq w (opsBeforeSetup project_name) with
  | (t1, some h) => (t1, h.toOutcome)
  | (t1, none) =>
    match pyFormat SETUP_TEMPLATE project_name with
    | .error e => (t1, .raised e)
    | .ok setup_content =>
      match runSeq w (opsFromSetup project_name setup_content) with
      | (t2, some h) => (t1 ++ t2, h.toOutcome)
      | (t2, none) =>
        match pyFormat README_TEMPLATE project_name with
        | .error e => (t1 ++ t2, .raised e)
        | .ok readme =>
          match runSeq w (opsFromReadme system project_name readme) with
          | (t3, some h) => (t1 ++ t2 ++ t3, h.toOutcome)
          | (t3, none) =>
            (t1 ++ t2 ++ t3, .success (create_and_activate_venv system project_name).2.1)

/-- The success banner printed by `main` (an f-string in the source). -/
def successMsg (project_name activate_cmd : String) : String :=
  "\nProject " ++ project_name
  ++ " created successfully!\n\nYour virtual environment has been created and dependencies installed.\n\nTo activate the virtual environment:\n"
  ++ activate_cmd
  ++ "\n\nTo run the application:\ncd " ++ project_name
  ++ "\npython main.py\n\nYour API will be available at http://localhost:8000\nAPI documentation will be at http://localhost:8000/docs\n\nTo run tests:\npytest\n\nHappy coding! \u00f0\u0178\u0161\u20ac\n"

/-- `main()` of `create_fast_api_project.py`: same shape as the Django
generator's `main`, with its own usage text and banner. -/
def main (w : World) (system : String) (argv : List String) : List Ev × Int :=
  match argv with
  | [_, project_name] =>
    let pre := [Ev.echo ("Creating new project: " ++ project_name)]
    match create_project_structure w system project_name with
    | (t, .success activate_script) =>
      let activate_cmd := if system = "Windows" then activate_script
                          else "source " ++ activate_script
      (pre ++ t ++ [.echo (successMsg project_name activate_cmd)], 0)
    | (t, .sysExit c) => (pre ++ t, c)
    | (t, .raised e) =>
      (pre ++ t ++ [.echo ("Error creating project: " ++ e.toMsg)], 1)
  | _ => ([.echo "Usage: python create_project.py project_name"], 1)

end FastApi


/-! ### Rendering lemmas for the formatted templates -/

/-- Decidable check that a string contains no brace. -/
def noBraceB (s : String) : Bool := s.data.all fun c => c != '{' && c != '}'

lemma noBrace_of_B (s : String) (h : noBraceB s = true) :
    ∀ c ∈ s.data, c ≠ '{' ∧ c ≠ '}' := by
  intro c hc
  have h2 := List.all_eq_true.mp h c hc
  simp only [Bool.and_eq_true, bne_iff_ne, ne_eq] at h2
  exact h2

/-- The format scanner copies a brace-free chunk verbatim. -/
lemma fmt_clean (sub : String) (cs rest : List Char)
    (h : ∀ c ∈ cs, c ≠ '{' ∧ c ≠ '}') :
    fmtStep sub .text (cs ++ rest) = (fun l => cs ++ l) <$> fmtStep sub .text rest := by
  induction cs with
  | nil => cases h2 : fmtStep sub .text rest <;> simp [h2]
  | cons c cs ih =>
    have hc := h c (List.mem_cons_self _ _)
    have hrest : ∀ x ∈ cs, x ≠ '{' ∧ x ≠ '}' := fun x hx => h x (List.mem_cons_of_mem _ hx)
    rw [List.cons_append, fmtStep, if_neg hc.1, if_neg hc.2, ih hrest]
    cases h2 : fmtStep sub .text rest <;> simp [h2]

/-- A `\x7bproject_name\x7d` field substitutes the supplied value. -/
lemma fmt_field (sub : String) (rest : List Char) :
    fmtStep sub .text ('{' :: ("project_name".data ++ '}' :: rest))
      = (fun l => sub.data ++ l) <$> fmtStep sub .text rest := rfl

/-- The field formed by the unescaped braces of `package_dir=\x7b"": "src"\x7d`
parses with field name `""` and format spec `"src"`, whose lookup raises
`KeyError` on the two-character key consisting of two double quotes —
exactly CPython's behaviour on this template. -/
lemma fmt_badfield (sub : String) (rest : List Char) :
    fmtStep sub .text ('{' :: ("\"\": \"src\"".data ++ '}' :: rest))
      = .error (.keyError "\"\"") := rfl

lemma placeholder_data :
    ("\x7bproject_name\x7d" : String).data = '{' :: ("project_name".data ++ ['}']) := rfl

/-- Rendering a template made of two interpolation points separated by
brace-free chunks: both placeholders substitute and nothing else changes. -/
lemma pyFormat_three_parts (p0 p1 p2 sub : String)
    (h0 : noBraceB p0 = true) (h1 : noBraceB p1 = true) (h2 : noBraceB p2 = true) :
    pyFormat (p0 ++ "\x7bproject_name\x7d" ++ p1 ++ "\x7bproject_name\x7d" ++ p2) sub
      = .ok (p0 ++ sub ++ p1 ++ sub ++ p2) := by
  unfold pyFormat
  have hdata :
      (p0 ++ "\x7bproject_name\x7d" ++ p1 ++ "\x7bproject_name\x7d" ++ p2).data
        = p0.data ++ ('{' :: ("project_name".data ++ '}' ::
            (p1.data ++ ('{' :: ("project_name".data ++ '}' :: p2.data))))) := by
    simp [string_data_append, placeholder_data, List.append_assoc]
  rw [hdata, fmt_clean sub p0.data _ (noBrace_of_B p0 h0), fmt_field,
      fmt_clean sub p1.data _ (noBrace_of_B p1 h1), fmt_field,
      ← List.append_nil p2.data, fmt_clean sub p2.data [] (noBrace_of_B p2 h2)]
  show String.mk <$> _ = _
  simp only [fmtStep, Except.map_ok]
  apply congrArg
  apply string_eq_of_data
  simp [string_data_append, List.append_assoc]

/-- Rendering a template whose text after the placeholder reaches an
unescaped `\x7b"": "src"\x7d` field: the run raises `KeyError` on the
two-double-quote key, for every project name. -/
lemma pyFormat_badfield (p0 mid tail sub : String)
    (h0 : noBraceB p0 = true) (h1 : noBraceB mid = true) :
    pyFormat (p0 ++ "\x7bproject_name\x7d" ++ mid ++ "\x7b\"\": \"src\"\x7d" ++ tail) sub
      = .error (.keyError "\"\"") := by
  unfold pyFormat
  have hdata :
      (p0 ++ "\x7bproject_name\x7d" ++ mid ++ "\x7b\"\": \"src\"\x7d" ++ tail).data
        = p0.data ++ ('{' :: ("project_name".data ++ '}' ::
            (mid.data ++ ('{' :: ("\"\": \"src\"".data ++ '}' :: tail.data))))) := by
    simp [string_data_append, placeholder_data, List.append_assoc]
  rw [hdata, fmt_clean sub p0.data _ (noBrace_of_B p0 h0), fmt_field,
      fmt_clean sub mid.data _ (noBrace_of_B mid h1), fmt_badfield]
  rfl

namespace Django

/-- The README the Django generator renders for project name `n`: the three
literal chunks with the name interpolated at both placeholders. -/
def readmeRendered (n : String) : String :=
  READMEpart0 ++ n ++ READMEpart1 ++ n ++ READMEpart2

set_option maxRecDepth 40000 in
/-- `README_TEMPLATE.format(project_name=n)` succeeds for every `n` and
interpolates `n` verbatim at both placeholders. -/
lemma readme_renders (n : String) :
    pyFormat README_TEMPLATE n = .ok (readmeRendered n) :=
  pyFormat_three_parts READMEpart0 READMEpart1 READMEpart2 n
    (by decide) (by decide) (by decide)

end Django

namespace FastApi

set_option maxRecDepth 40000 in
/-- `SETUP_TEMPLATE.format(project_name=n)` raises
`KeyError` on the two-double-quote key for every `n`: the template's
`package_dir=\x7b"": "src"\x7d` braces are not escaped. -/
lemma setup_raises (n : String) :
    pyFormat SETUP_TEMPLATE n = .error (.keyError "\"\"") :=
  pyFormat_badfield SETUPpart0 SETUPmid SETUPtail n (by decide) (by decide)

end FastApi


/-! ### Trace characterizations -/

lemma writesOf_append (t1 t2 : List Ev) :
    writesOf (t1 ++ t2) = writesOf t1 ++ writesOf t2 :=
  List.filterMap_append t1 t2 _

lemma touchesOf_append (t1 t2 : List Ev) :
    touchesOf (t1 ++ t2) = touchesOf t1 ++ touchesOf t2 :=
  List.filterMap_append t1 t2 _

namespace Django

/-- The `(relative path, content)` registry of the Django generator, minus the
README: every entry is a constant (no project-name dependence). -/
def staticFiles : List (String × String) := [
  ("config/__init__.py", ""),
  ("config/settings.py", SETTINGS_TEMPLATE),
  ("config/urls.py", URLS_TEMPLATE),
  ("config/wsgi.py", WSGI_TEMPLATE),
  ("config/asgi.py", ASGI_TEMPLATE),
  ("manage.py", MANAGE_TEMPLATE),
  ("usecase1/__init__.py", ""),
  ("usecase1/models.py", APP_MODELS_TEMPLATE),
  ("usecase1/serializers.py", APP_SERIALIZERS_TEMPLATE),
  ("usecase1/views.py", APP_VIEWS_TEMPLATE),
  ("usecase1/urls.py", APP_URLS_TEMPLATE),
  ("usecase1/admin.py", APP_ADMIN_TEMPLATE),
  ("usecase1/tests.py", APP_TESTS_TEMPLATE),
  ("usecase1/migrations/__init__.py", ""),
  ("usecase2/__init__.py", ""),
  ("usecase2/models.py", APP_MODELS_TEMPLATE),
  ("usecase2/serializers.py", APP_SERIALIZERS_TEMPLATE),
  ("usecase2/views.py", APP_VIEWS_TEMPLATE),
  ("usecase2/urls.py", APP_URLS_TEMPLATE),
  ("usecase2/admin.py", APP_ADMIN_TEMPLATE),
  ("usecase2/tests.py", APP_TESTS_TEMPLATE),
  ("usecase2/migrations/__init__.py", ""),
  ("requirements.txt", REQUIREMENTS_TEMPLATE),
  (".env", ENV_TEMPLATE),
  (".gitignore", GITIGNORE_TEMPLATE)]

/-- Everything this generator writes for project name `n`: the static registry
prefixed with `n`, then the rendered README — only the README content depends
on `n`, by interpolation of `n` itself. -/
def renderedFiles (n : String) : List (String × String) :=
  staticFiles.map (fun pc => (pjoin n pc.1, pc.2)) ++ [(pjoin n "README.md", readmeRendered n)]

/-- A fully successful run executes exactly the two op stages, with the README
rendered, and returns the activation-script path. -/
lemma dj_create_success (w : World) (system n a : String)
    (h : (create_project_structure w system n).2 = .success a) :
    create_project_structure w system n
      = (opsBeforeReadme n ++ opsFromReadme system n (readmeRendered n),
         .success (create_and_activate_venv system n).2.1) := by
  unfold create_project_structure at h ⊢
  cases h1 : runSeq w (opsBeforeReadme n) with
  | mk t1 o1 =>
    rw [h1] at h
    cases o1 with
    | some hh =>
      cases hh <;> simp [Halt.toOutcome] at h
    | none =>
      rw [readme_renders] at h ⊢
      simp only [] at h ⊢
      cases h2 : runSeq w (opsFromReadme system n (readmeRendered n)) with
      | mk t2 o2 =>
        rw [h2] at h
        cases o2 with
        | some hh =>
          cases hh <;> simp [Halt.toOutcome] at h
        | none =>
          have e1 := runSeq_eq_of_none w _ _ h1
          have e2 := runSeq_eq_of_none w _ _ h2
          subst e1
          subst e2
          simp

/-- In the all-success world the run succeeds. -/
lemma dj_create_allOk (system n : String) :
    create_project_structure allOk system n
      = (opsBeforeReadme n ++ opsFromReadme system n (readmeRendered n),
         .success (create_and_activate_venv system n).2.1) := by
  simp only [create_project_structure, runSeq_allOk, readme_renders]

/-- A raised outcome of this generator always comes from a failed filesystem
or venv operation (its README formatting never fails), and carries that
operation's message unmodified. -/
lemma dj_create_raised (w : World) (system n : String) (e : PyExc)
    (h : (create_project_structure w system n).2 = .raised e) :
    ∃ ev m, w.fsFail ev = some m ∧ e = .osError m := by
  unfold create_project_structure at h
  cases h1 : runSeq w (opsBeforeReadme n) with
  | mk t1 o1 =>
    rw [h1] at h
    cases o1 with
    | some hh =>
      cases hh with
      | sysExit c => simp [Halt.toOutcome] at h
      | raised e2 =>
        simp [Halt.toOutcome] at h
        subst h
        obtain ⟨ev, -, m, hm, he⟩ := runSeq_raised w _ _ _ h1
        exact ⟨ev, m, hm, he⟩
    | none =>
      rw [readme_renders] at h
      simp only [] at h
      cases h2 : runSeq w (opsFromReadme system n (readmeRendered n)) with
      | mk t2 o2 =>
        rw [h2] at h
        cases o2 with
        | some hh =>
          cases hh with
          | sysExit c => simp [Halt.toOutcome] at h
          | raised e2 =>
            simp [Halt.toOutcome] at h
            subst h
            obtain ⟨ev, -, m, hm, he⟩ := runSeq_raised w _ _ _ h2
            exact ⟨ev, m, hm, he⟩
        | none =>
          simp at h

/-- Whenever the pre-README materialization operations all complete — in
particular whenever materialization completes, whatever happens afterwards
(git init, venv, installs may still fail) — the run's trace begins with those
operations verbatim. -/
lemma dj_trace_of_mat (w : World) (system n : String)
    (hmat : (runSeq w (opsBeforeReadme n)).2 = none) :
    ∃ t2, (create_project_structure w system n).1 = opsBeforeReadme n ++ t2 := by
  unfold create_project_structure
  cases h1 : runSeq w (opsBeforeReadme n) with
  | mk t1 o1 =>
    rw [h1] at hmat
    simp at hmat
    subst hmat
    have e1 := runSeq_eq_of_none w _ _ h1
    subst e1
    rw [readme_renders]
    simp only []
    cases h2 : runSeq w (opsFromReadme system n (readmeRendered n)) with
    | mk t2 o2 =>
      cases o2 with
      | some hh => exact ⟨t2, by cases hh <;> rfl⟩
      | none => exact ⟨t2, rfl⟩

/-- The write list of the all-success run: the static registry under `n`, then
the rendered README. -/
lemma dj_writes_allOk (system n : String) :
    writesOf (create_project_structure allOk system n).1 = renderedFiles n := by
  rw [dj_create_allOk]
  simp only [writesOf_append]
  simp [opsBeforeReadme, opsFromReadme, create_django_app, create_file_with_content,
        create_and_activate_venv, writesOf, renderedFiles, staticFiles, pjoin_pjoin]

/-- `main` on a run that raised: the banner print, the partial trace, the
top-level handler's diagnostic, exit status 1. -/
lemma dj_main_raised (w : World) (system p n : String) (e : PyExc)
    (h : (create_project_structure w system n).2 = .raised e) :
    main w system [p, n]
      = ([Ev.echo ("Creating new Django project: " ++ n)]
         ++ (create_project_structure w system n).1
         ++ [.echo ("Error creating project: " ++ e.toMsg)], 1) := by
  unfold main
  simp only []
  rw [show create_project_structure w system n
        = ((create_project_structure w system n).1, Outcome.raised e) from by
      rw [← h]]

/-- `main` on a run that called `sys.exit`: the status propagates (the
`except Exception` does not catch `SystemExit`). -/
lemma dj_main_sysExit (w : World) (system p n : String) (c : Int)
    (h : (create_project_structure w system n).2 = .sysExit c) :
    main w system [p, n]
      = ([Ev.echo ("Creating new Django project: " ++ n)]
         ++ (create_project_structure w system n).1, c) := by
  unfold main
  simp only []
  rw [show create_project_structure w system n
        = ((create_project_structure w system n).1, Outcome.sysExit c) from by
      rw [← h]]

end Django

namespace FastApi

/-- The `(relative path, content)` registry the FastAPI generator writes
before its `setup.py` formatting step; every entry is a constant. -/
def staticFiles : List (String × String) :=
  (COMMON_FILES.map (fun fc => ("src/common/" ++ fc.1, fc.2)))
  ++ (USECASE_FILES.map (fun fc => ("src/usecase1/" ++ fc.1, fc.2)))
  ++ (USECASE_FILES.map (fun fc => ("src/usecase2/" ++ fc.1, fc.2)))
  ++ (TEST_FILES.map (fun fc => ("tests/" ++ fc.1, fc.2)))
  ++ [("tests/test_usecase1/test_routes.py", test_routes_content "usecase1"),
      ("tests/test_usecase2/test_routes.py", test_routes_content "usecase2"),
      ("main.py", MAIN_APP_TEMPLATE)]

/-- The package-marker files the generator touches. -/
def touchRels : List String :=
  ["src/common/__init__.py", "src/usecase1/__init__.py", "src/usecase2/__init__.py",
   "tests/test_usecase1/__init__.py", "tests/test_usecase2/__init__.py"]

/-- The relative paths of every write the generator intends, including the
four files after the `setup.py` formatting step. -/
def allWriteRels : List String :=
  staticFiles.map Prod.fst ++ ["setup.py", ".env", ".gitignore", "README.md"]

/-- This generator never returns successfully: its `setup.py` formatting
raises for every project name, in every world. -/
lemma create_no_success (w : World) (system n a : String) :
    (create_project_structure w system n).2 ≠ .success a := by
  unfold create_project_structure
  cases h1 : runSeq w (opsBeforeSetup n) with
  | mk t1 o1 =>
    cases o1 with
    | some hh => cases hh <;> simp [Halt.toOutcome]
    | none => simp [setup_raises]

/-- In the all-success world the run executes the first stage completely and
then raises the `KeyError` from the `setup.py` formatting. -/
lemma fa_create_allOk (system n : String) :
    create_project_structure allOk system n
      = (opsBeforeSetup n, .raised (.keyError "\"\"")) := by
  simp only [create_project_structure, runSeq_allOk, setup_raises]

/-- A raised outcome of this generator is a failed filesystem operation's
`OSError` (message unmodified) or the `KeyError` from `setup.py`
formatting. -/
lemma fa_create_raised (w : World) (system n : String) (e : PyExc)
    (h : (create_project_structure w system n).2 = .raised e) :
    (∃ ev m, w.fsFail ev = some m ∧ e = .osError m) ∨ e = .keyError "\"\"" := by
  unfold create_project_structure at h
  cases h1 : runSeq w (opsBeforeSetup n) with
  | mk t1 o1 =>
    rw [h1] at h
    cases o1 with
    | some hh =>
      cases hh with
      | sysExit c => simp [Halt.toOutcome] at h
      | raised e2 =>
        simp [Halt.toOutcome] at h
        subst h
        obtain ⟨ev, -, m, hm, he⟩ := runSeq_raised w _ _ _ h1
        exact Or.inl ⟨ev, m, hm, he⟩
    | none =>
      rw [setup_raises] at h
      simp only [] at h
      simp at h
      exact Or.inr h.symm

/-- The write and touch lists of the all-success run. -/
lemma fa_writes_allOk (system n : String) :
    writesOf (create_project_structure allOk system n).1
      = staticFiles.map (fun pc => (pjoin n pc.1, pc.2)) := by
  rw [fa_create_allOk]
  simp [opsBeforeSetup, create_file_with_content, writesOf, staticFiles,
        COMMON_FILES, USECASE_FILES, TEST_FILES, pjoin_pjoin]

lemma fa_touches_allOk (system n : String) :
    touchesOf (create_project_structure allOk system n).1
      = touchRels.map (pjoin n) := by
  rw [fa_create_allOk]
  simp [opsBeforeSetup, create_file_with_content, touchesOf, touchRels,
        COMMON_FILES, USECASE_FILES, TEST_FILES, pjoin_pjoin]

/-- `main` on a run that raised: banner, partial trace, the handler's
diagnostic, exit status 1. -/
lemma fa_main_raised (w : World) (system p n : String) (e : PyExc)
    (h : (create_project_structure w system n).2 = .raised e) :
    main w system [p, n]
      = ([Ev.echo ("Creating new project: " ++ n)]
         ++ (create_project_structure w system n).1
         ++ [.echo ("Error creating project: " ++ e.toMsg)], 1) := by
  unfold main
  simp only []
  rw [show create_project_structure w system n
        = ((create_project_structure w system n).1, Outcome.raised e) from by
      rw [← h]]

end FastApi


/-! ### Further helper lemmas for the claims -/

/-- Every event of an executed trace is one of the requested operations or a
diagnostic print. -/
lemma runSeq_events (w : World) (ops : List Ev) (e : Ev)
    (h : e ∈ (runSeq w ops).1) : e ∈ ops ∨ ∃ m, e = .echo m := by
  induction ops with
  | nil => simp [runSeq] at h
  | cons ev rest ih =>
    simp only [runSeq] at h
    cases hs : stepEv w ev with
    | emit evs =>
      rw [hs] at h
      simp only [List.mem_append] at h
      cases h with
      | inl h2 =>
        rw [stepEv_emit_eq w ev evs hs] at h2
        simp at h2
        exact Or.inl (by simp [h2])
      | inr h2 =>
        cases ih h2 with
        | inl h3 => exact Or.inl (List.mem_cons_of_mem _ h3)
        | inr h3 => exact Or.inr h3
    | halt evs hh =>
      rw [hs] at h
      cases hh with
      | raised e2 =>
        obtain ⟨he, -⟩ := stepEv_halt_raised w ev evs e2 hs
        subst he
        simp at h
      | sysExit c =>
        obtain ⟨-, cm, cwd, hev, -, he⟩ := stepEv_halt_sysExit w ev evs c hs
        subst he
        simp at h
        rcases h with h2 | h2 | h2
        · exact Or.inl (by simp [hev, h2])
        · exact Or.inr ⟨_, h2⟩
        · exact Or.inr ⟨_, h2⟩

namespace Django

/-- A `sys.exit` outcome of this generator carries status 1. -/
lemma dj_create_sysExit_one (w : World) (system n : String) (c : Int)
    (h : (create_project_structure w system n).2 = .sysExit c) : c = 1 := by
  unfold create_project_structure at h
  cases h1 : runSeq w (opsBeforeReadme n) with
  | mk t1 o1 =>
    rw [h1] at h
    cases o1 with
    | some hh =>
      cases hh with
      | sysExit c2 =>
        simp [Halt.toOutcome] at h
        subst h
        exact runSeq_sysExit w _ _ _ h1
      | raised e2 => simp [Halt.toOutcome] at h
    | none =>
      rw [readme_renders] at h
      simp only [] at h
      cases h2 : runSeq w (opsFromReadme system n (readmeRendered n)) with
      | mk t2 o2 =>
        rw [h2] at h
        cases o2 with
        | some hh =>
          cases hh with
          | sysExit c2 =>
            simp [Halt.toOutcome] at h
            subst h
            exact runSeq_sysExit w _ _ _ h2
          | raised e2 => simp [Halt.toOutcome] at h
        | none => simp at h

/-- The relative paths of every file the Django generator writes. -/
def allWriteRels : List String := staticFiles.map Prod.fst ++ ["README.md"]

lemma write_paths_allOk (system n : String) :
    (writesOf (create_project_structure allOk system n).1).map Prod.fst
      = allWriteRels.map (pjoin n) := by
  rw [dj_writes_allOk]
  simp [renderedFiles, allWriteRels, List.map_map, Function.comp]

/-- The rendered README for `"demo"`, decomposed to exhibit its first line
`# demo` and its structure-diagram line `demo/`. -/
lemma readme_demo_decomp :
    readmeRendered "demo"
      = "# demo\n" ++ (READMEpart1mid ++ "\ndemo/\n" ++ READMEpart2rest) := by
  apply string_eq_of_data
  simp only [readmeRendered, READMEpart1, READMEpart2,
    string_data_append, List.append_assoc]
  have h0 : READMEpart0.data = ['#', ' '] := by decide
  rw [h0]
  simp [List.append_assoc]

end Django

namespace FastApi

/-- Whatever the world, the trace of this generator is the trace of its first
stage: the `setup.py` formatting error (or an earlier filesystem failure)
always stops the run there. -/
lemma create_trace_eq (w : World) (system n : String) :
    (create_project_structure w system n).1 = (runSeq w (opsBeforeSetup n)).1 := by
  unfold create_project_structure
  cases h1 : runSeq w (opsBeforeSetup n) with
  | mk t1 o1 =>
    cases o1 with
    | some hh => cases hh <;> rfl
    | none => rw [setup_raises]

/-- A `sys.exit` outcome of this generator carries status 1. -/
lemma fa_create_sysExit_one (w : World) (system n : String) (c : Int)
    (h : (create_project_structure w system n).2 = .sysExit c) : c = 1 := by
  unfold create_project_structure at h
  cases h1 : runSeq w (opsBeforeSetup n) with
  | mk t1 o1 =>
    rw [h1] at h
    cases o1 with
    | some hh =>
      cases hh with
      | sysExit c2 =>
        simp [Halt.toOutcome] at h
        subst h
        exact runSeq_sysExit w _ _ _ h1
      | raised e2 => simp [Halt.toOutcome] at h
    | none =>
      rw [setup_raises] at h
      simp at h

/-- `main` on a run that called `sys.exit`: the status propagates. -/
lemma fa_main_sysExit (w : World) (system p n : String) (c : Int)
    (h : (create_project_structure w system n).2 = .sysExit c) :
    main w system [p, n]
      = ([Ev.echo ("Creating new project: " ++ n)]
         ++ (create_project_structure w system n).1, c) := by
  unfold main
  simp only []
  rw [show create_project_structure w system n
        = ((create_project_structure w system n).1, Outcome.sysExit c) from by
      rw [← h]]

/-- The first stage's operations include no chmod, whatever the name. -/
lemma opsBeforeSetup_no_chmod (n : String) :
    (opsBeforeSetup n).all (fun e => !e.isChmod) = true := by
  simp [opsBeforeSetup, create_file_with_content, COMMON_FILES, USECASE_FILES,
        TEST_FILES, Ev.isChmod]

/-- No run of this generator ever performs a chmod. -/
lemma no_chmod (w : World) (system n : String) :
    (create_project_structure w system n).1.all (fun e => !e.isChmod) = true := by
  rw [create_trace_eq]
  rw [List.all_eq_true]
  intro e he
  cases runSeq_events w _ e he with
  | inl h2 =>
    have h3 := List.all_eq_true.mp (opsBeforeSetup_no_chmod n) e h2
    exact h3
  | inr h2 =>
    obtain ⟨m, hm⟩ := h2
    subst hm
    rfl

/-- The write paths of the three op stages together (the generator's full
intended registry, contents irrelevant). -/
lemma planned_write_paths (system n s r : String) :
    (writesOf (opsBeforeSetup n ++ opsFromSetup n s ++ opsFromReadme system n r)).map Prod.fst
      = allWriteRels.map (pjoin n) := by
  simp [opsBeforeSetup, opsFromSetup, opsFromReadme, create_file_with_content,
        create_and_activate_venv, writesOf, writesOf_append, allWriteRels, staticFiles,
        COMMON_FILES, USECASE_FILES, TEST_FILES, pjoin_pjoin, List.map_map]

lemma planned_touches (system n s r : String) :
    touchesOf (opsBeforeSetup n ++ opsFromSetup n s ++ opsFromReadme system n r)
      = touchRels.map (pjoin n) := by
  simp [opsBeforeSetup, opsFromSetup, opsFromReadme, create_file_with_content,
        create_and_activate_venv, touchesOf, touchRels,
        COMMON_FILES, USECASE_FILES, TEST_FILES, pjoin_pjoin]

end FastApi

/-- Mapping an injection preserves disjointness of lists. -/
lemma disjoint_map_of_disjoint {α β : Type} (f : α → β) (hf : Function.Injective f)
    (l1 l2 : List α) (h : ∀ a ∈ l1, a ∉ l2) :
    ∀ b ∈ l1.map f, b ∉ l2.map f := by
  intro b hb hb2
  obtain ⟨a1, ha1, he1⟩ := List.mem_map.mp hb
  obtain ⟨a2, ha2, he2⟩ := List.mem_map.mp hb2
  have : a1 = a2 := hf (he1.trans he2.symm)
  subst this
  exact h a1 ha1 ha2


/-! ### The claims -/

/-- Worlds used to exhibit failing runs: one where every `chmod` raises, and
one where `git init` exits non-zero. -/
def chmodFailWorld : World :=
  ⟨fun _ _ => ⟨"", "", 0⟩,
   fun ev => match ev with
     | .chmod _ _ => some "Operation not permitted"
     | _ => none⟩

def gitFailWorld : World :=
  ⟨fun c _ => if c = "git init" then ⟨"", "fatal: not a git repository", 1⟩ else ⟨"", "", 0⟩,
   fun _ => none⟩

/-- C1: for every project name `n`, rendering the template registry is
deterministic and pure — in this embedding every generator is a function of
`(system, n)` alone, and the write list of a run decomposes into a registry
that is constant in `n` plus the README, whose content is the fixed chunks
with `n` interpolated; moreover re-running the materialization against the
same target overwrites every previously written file with the same bytes
(replaying the trace a second time is the identity on file contents). -/
theorem claim_C1 (system n : String) (fs : FileSys) :
    writesOf (Django.create_project_structure allOk system n).1
        = Django.staticFiles.map (fun pc => (pjoin n pc.1, pc.2))
          ++ [(pjoin n "README.md", Django.readmeRendered n)]
    ∧ Django.readmeRendered n
        = Django.READMEpart0 ++ n ++ Django.READMEpart1 ++ n ++ Django.READMEpart2
    ∧ writesOf (FastApi.create_project_structure allOk system n).1
        = FastApi.staticFiles.map (fun pc => (pjoin n pc.1, pc.2))
    ∧ applyTrace (applyTrace fs (Django.create_project_structure allOk system n).1)
        (Django.create_project_structure allOk system n).1
      = applyTrace fs (Django.create_project_structure allOk system n).1
    ∧ applyTrace (applyTrace fs (FastApi.create_project_structure allOk system n).1)
        (FastApi.create_project_structure allOk system n).1
      = applyTrace fs (FastApi.create_project_structure allOk system n).1 :=
  ⟨Django.dj_writes_allOk system n, rfl, FastApi.fa_writes_allOk system n,
   applyTrace_idem fs _, applyTrace_idem fs _⟩

/-- C2: in every successful run the orchestrator's steps occur in the strict
order materialize-all-files, git init, venv creation, installer upgrade,
dependency install, framework bootstrap (migration for Django; for FastAPI
the editable install is the dependency install), and the materialization
segment contains no external command and no venv creation.  (The FastAPI
generator has no successful runs at all — its `setup.py` formatting raises
for every name — so its half holds vacuously.) -/
theorem claim_C2 (w : World) (system n a : String) :
    ((Django.create_project_structure w system n).2 = .success a →
      (Django.create_project_structure w system n).1
        = (Django.opsBeforeReadme n
            ++ create_file_with_content (pjoin n "README.md") (Django.readmeRendered n))
          ++ [Ev.echo "Initializing git repository...",
              Ev.exec "git init" (pathStr n),
              Ev.echo "Setting up virtual environment...",
              Ev.echo "Creating virtual environment...",
              Ev.venvCreate (pjoin n "venv"),
              Ev.echo "Installing dependencies...",
              Ev.exec ("\"" ++ (Django.create_and_activate_venv system n).2.2.2
                        ++ "\" install --upgrade pip") (pathStr n),
              Ev.exec ("\"" ++ (Django.create_and_activate_venv system n).2.2.2
                        ++ "\" install -r requirements.txt") (pathStr n),
              Ev.echo "Initializing Django project...",
              Ev.exec ("\"" ++ (Django.create_and_activate_venv system n).2.2.1
                        ++ "\" manage.py migrate") (pathStr n)]
      ∧ (Django.opsBeforeReadme n
          ++ create_file_with_content (pjoin n "README.md") (Django.readmeRendered n)).all
            (fun e => !e.isCmdOrVenv) = true)
    ∧ ((FastApi.create_project_structure w system n).2 = .success a →
      ∃ sc rd,
        (FastApi.create_project_structure w system n).1
          = (FastApi.opsBeforeSetup n ++ FastApi.opsFromSetup n sc
              ++ create_file_with_content (pjoin n "README.md") rd)
            ++ [Ev.echo "Initializing git repository...",
                Ev.exec "git init" (pathStr n),
                Ev.echo "Setting up virtual environment...",
                Ev.echo "Creating virtual environment...",
                Ev.venvCreate (pjoin n "venv"),
                Ev.echo "Installing dependencies...",
                Ev.exec ("\"" ++ (FastApi.create_and_activate_venv system n).2.2.2
                          ++ "\" install --upgrade pip") (pathStr n),
                Ev.exec ("\"" ++ (FastApi.create_and_activate_venv system n).2.2.2
                          ++ "\" install -e .") (pathStr n)]
        ∧ (FastApi.opsBeforeSetup n ++ FastApi.opsFromSetup n sc
            ++ create_file_with_content (pjoin n "README.md") rd).all
              (fun e => !e.isCmdOrVenv) = true) := by
  constructor
  · intro h
    have hc := Django.dj_create_success w system n a h
    constructor
    · rw [show (Django.create_project_structure w system n).1
            = Django.opsBeforeReadme n
              ++ Django.opsFromReadme system n (Django.readmeRendered n) from by rw [hc]]
      simp [Django.opsFromReadme, Django.create_and_activate_venv, List.append_assoc]
    · simp [Django.opsBeforeReadme, Django.create_django_app, create_file_with_content,
            Ev.isCmdOrVenv]
  · intro h
    exact absurd h (FastApi.create_no_success w system n a)

/-- C2 witness: the Django generator's hypothesis is satisfiable — the
all-success world with name `demo` yields a successful run, and the claimed
decomposition holds there. -/
theorem claim_C2_witness :
    (Django.create_project_structure allOk "Linux" "demo").1
      = (Django.opsBeforeReadme "demo"
          ++ create_file_with_content (pjoin "demo" "README.md") (Django.readmeRendered "demo"))
        ++ [Ev.echo "Initializing git repository...",
            Ev.exec "git init" (pathStr "demo"),
            Ev.echo "Setting up virtual environment...",
            Ev.echo "Creating virtual environment...",
            Ev.venvCreate (pjoin "demo" "venv"),
            Ev.echo "Installing dependencies...",
            Ev.exec ("\"" ++ (Django.create_and_activate_venv "Linux" "demo").2.2.2
                      ++ "\" install --upgrade pip") (pathStr "demo"),
            Ev.exec ("\"" ++ (Django.create_and_activate_venv "Linux" "demo").2.2.2
                      ++ "\" install -r requirements.txt") (pathStr "demo"),
            Ev.echo "Initializing Django project...",
            Ev.exec ("\"" ++ (Django.create_and_activate_venv "Linux" "demo").2.2.1
                      ++ "\" manage.py migrate") (pathStr "demo")]
    ∧ (Django.opsBeforeReadme "demo"
        ++ create_file_with_content (pjoin "demo" "README.md")
             (Django.readmeRendered "demo")).all (fun e => !e.isCmdOrVenv) = true :=
  (claim_C2 allOk "Linux" "demo" (Django.create_and_activate_venv "Linux" "demo").2.1).1
    (by rw [Django.dj_create_allOk])

/-- C3: the Command Runner prints the failing command and its captured stderr
and exits the process with status 1 on any non-zero exit status — and the
following operations of the sequence never execute; on a zero exit status it
returns the captured stdout.  At the orchestrator level, a `sys.exit` outcome
always carries status 1 and propagates through `main` uncaught. -/
theorem claim_C3 (w : World) (command cwd : String) (rest : List Ev) :
    ((w.exec command cwd).returncode ≠ 0 →
      run_command w command cwd
        = ([.exec command cwd,
            .echo ("Error running command: " ++ command),
            .echo ("Error: " ++ (w.exec command cwd).stderr)], .error 1)
      ∧ runSeq w (.exec command cwd :: rest)
          = ([.exec command cwd,
              .echo ("Error running command: " ++ command),
              .echo ("Error: " ++ (w.exec command cwd).stderr)], some (.sysExit 1)))
    ∧ ((w.exec command cwd).returncode = 0 →
      run_command w command cwd = ([.exec command cwd], .ok (w.exec command cwd).stdout))
    ∧ (∀ system p n c,
        (Django.create_project_structure w system n).2 = .sysExit c →
        c = 1 ∧ Django.main w system [p, n]
          = ([Ev.echo ("Creating new Django project: " ++ n)]
             ++ (Django.create_project_structure w system n).1, 1))
    ∧ (∀ system p n c,
        (FastApi.create_project_structure w system n).2 = .sysExit c →
        c = 1 ∧ FastApi.main w system [p, n]
          = ([Ev.echo ("Creating new project: " ++ n)]
             ++ (FastApi.create_project_structure w system n).1, 1)) := by
  refine ⟨fun h => ⟨?_, ?_⟩, fun h => ?_, fun system p n c h => ?_, fun system p n c h => ?_⟩
  · simp [run_command, h]
  · simp [runSeq, stepEv, run_command, h]
  · simp [run_command, h]
  · have h1 := Django.dj_create_sysExit_one w system n c h
    subst h1
    exact ⟨rfl, Django.dj_main_sysExit w system p n 1 h⟩
  · have h1 := FastApi.fa_create_sysExit_one w system n c h
    subst h1
    exact ⟨rfl, FastApi.fa_main_sysExit w system p n 1 h⟩

/-- C3 witness: a world where `git init` fails with status 1: the runner
records the diagnostic prints and the halt, and nothing after the command
executes. -/
theorem claim_C3_witness :
    run_command gitFailWorld "git init" "demo"
      = ([.exec "git init" "demo",
          .echo ("Error running command: " ++ "git init"),
          .echo ("Error: " ++ (gitFailWorld.exec "git init" "demo").stderr)], .error 1)
    ∧ runSeq gitFailWorld [Ev.exec "git init" "demo", Ev.venvCreate "demo/venv"]
        = ([.exec "git init" "demo",
            .echo ("Error running command: " ++ "git init"),
            .echo ("Error: " ++ (gitFailWorld.exec "git init" "demo").stderr)],
           some (.sysExit 1)) :=
  (claim_C3 gitFailWorld "git init" "demo" [Ev.venvCreate "demo/venv"]).1 (by decide)

/-- C4: with an argument count other than exactly one positional argument,
both generators print their usage line and exit with status 1, and their
trace contains no filesystem operation at all. -/
theorem claim_C4 (w : World) (system : String) (argv : List String)
    (h : argv.length ≠ 2) :
    Django.main w system argv
      = ([.echo "Usage: python create_django_project.py project_name"], 1)
    ∧ FastApi.main w system argv
      = ([.echo "Usage: python create_project.py project_name"], 1)
    ∧ (Django.main w system argv).1.all (fun e => !e.isFs) = true
    ∧ (FastApi.main w system argv).1.all (fun e => !e.isFs) = true := by
  have hd : Django.main w system argv
      = ([.echo "Usage: python create_django_project.py project_name"], 1) := by
    cases argv with
    | nil => rfl
    | cons a t =>
      cases t with
      | nil => rfl
      | cons b t2 =>
        cases t2 with
        | nil => exact absurd rfl h
        | cons c t3 => rfl
  have hf : FastApi.main w system argv
      = ([.echo "Usage: python create_project.py project_name"], 1) := by
    cases argv with
    | nil => rfl
    | cons a t =>
      cases t with
      | nil => rfl
      | cons b t2 =>
        cases t2 with
        | nil => exact absurd rfl h
        | cons c t3 => rfl
  exact ⟨hd, hf, by rw [hd]; rfl, by rw [hf]; rfl⟩

/-- C4 witness: invoking with zero arguments. -/
theorem claim_C4_witness :
    Django.main allOk "Linux" ["create_django_project.py"]
      = ([.echo "Usage: python create_django_project.py project_name"], 1)
    ∧ FastApi.main allOk "Linux" ["create_project.py"]
      = ([.echo "Usage: python create_project.py project_name"], 1) :=
  ⟨(claim_C4 allOk "Linux" ["create_django_project.py"] (by decide)).1,
   (claim_C4 allOk "Linux" ["create_project.py"] (by decide)).2.1⟩

/-- C5: for every base path, the venv-path resolution of both generators is a
pure function of the platform string and the base path — no filesystem is
consulted — returning exactly three paths rooted at `basePath/venv`: on the
Windows family `Scripts/activate.bat`, `Scripts/python.exe`, `Scripts/pip.exe`;
on every other (POSIX-family) system `bin/activate`, `bin/python`, `bin/pip`.
The only effect is the venv creation itself at `basePath/venv`. -/
theorem claim_C5 (system base : String) :
    ((system = "Windows" →
       (Django.create_and_activate_venv system base).2
         = (pjoin base "venv/Scripts/activate.bat",
            pjoin base "venv/Scripts/python.exe",
            pjoin base "venv/Scripts/pip.exe"))
     ∧ (system ≠ "Windows" →
       (Django.create_and_activate_venv system base).2
         = (pjoin base "venv/bin/activate",
            pjoin base "venv/bin/python",
            pjoin base "venv/bin/pip"))
     ∧ (Django.create_and_activate_venv system base).1
         = [.echo "Creating virtual environment...", .venvCreate (pjoin base "venv")])
    ∧ ((system = "Windows" →
       (FastApi.create_and_activate_venv system base).2
         = (pjoin base "venv/Scripts/activate.bat",
            pjoin base "venv/Scripts/python.exe",
            pjoin base "venv/Scripts/pip.exe"))
     ∧ (system ≠ "Windows" →
       (FastApi.create_and_activate_venv system base).2
         = (pjoin base "venv/bin/activate",
            pjoin base "venv/bin/python",
            pjoin base "venv/bin/pip"))
     ∧ (FastApi.create_and_activate_venv system base).1
         = [.echo "Creating virtual environment...", .venvCreate (pjoin base "venv")]) := by
  refine ⟨⟨fun h => ?_, fun h => ?_, rfl⟩, ⟨fun h => ?_, fun h => ?_, rfl⟩⟩ <;>
    simp [Django.create_and_activate_venv, FastApi.create_and_activate_venv, h, pjoin_pjoin]

/-- C5 witness: both branches at a concrete base path. -/
theorem claim_C5_witness :
    (Django.create_and_activate_venv "Windows" "demo").2
      = (pjoin "demo" "venv/Scripts/activate.bat",
         pjoin "demo" "venv/Scripts/python.exe",
         pjoin "demo" "venv/Scripts/pip.exe")
    ∧ (FastApi.create_and_activate_venv "Linux" "demo").2
      = (pjoin "demo" "venv/bin/activate",
         pjoin "demo" "venv/bin/python",
         pjoin "demo" "venv/bin/pip") :=
  ⟨(claim_C5 "Windows" "demo").1.1 rfl, (claim_C5 "Linux" "demo").2.2.1 (by decide)⟩


set_option maxRecDepth 10000 in
/-- C6 counterexample: the claim "the entry-point script has its permissions
set to rwxr-xr-x" is false for the FastAPI generator: at project name `demo`
(all-success world, POSIX platform) the run performs no chmod at all, and in
particular never chmods `demo/main.py`. -/
theorem claim_C6_counterexample :
    Ev.chmod (pjoin "demo" "main.py") 0o755
      ∉ (FastApi.create_project_structure allOk "Linux" "demo").1
    ∧ (FastApi.create_project_structure allOk "Linux" "demo").1.all
        (fun e => !e.isChmod) = true := by
  rw [FastApi.fa_create_allOk]
  exact ⟨by decide, FastApi.opsBeforeSetup_no_chmod "demo"⟩

/-- C6 amended: in every Django run whose template materialization completes
— the hypothesis asks only that the operations before the README rendering
all succeed, so every run that completes materialization is covered,
including runs that fail later at git init, venv creation or an install —
the trace writes `manage.py` and chmods it to `0o755` immediately
afterwards; the FastAPI generator never performs any chmod in any run (its
`main.py` is run via `python main.py` and gets no execute bit). -/
theorem claim_C6_amended (w : World) (system n : String)
    (hmat : (runSeq w (Django.opsBeforeReadme n)).2 = none) :
    (∃ pre post,
      (Django.create_project_structure w system n).1
        = pre ++ [Ev.write (pjoin n "manage.py") Django.MANAGE_TEMPLATE,
                  Ev.chmod (pjoin n "manage.py") 0o755] ++ post)
    ∧ ∀ (w2 : World) (system2 n2 : String),
        (FastApi.create_project_structure w2 system2 n2).1.all (fun e => !e.isChmod) = true := by
  refine ⟨?_, fun w2 s2 n2 => FastApi.no_chmod w2 s2 n2⟩
  obtain ⟨t2, ht⟩ := Django.dj_trace_of_mat w system n hmat
  refine ⟨[Ev.mkdirp (pjoin n "config")]
      ++ create_file_with_content (pjoin (pjoin n "config") "__init__.py") ""
      ++ create_file_with_content (pjoin (pjoin n "config") "settings.py") Django.SETTINGS_TEMPLATE
      ++ create_file_with_content (pjoin (pjoin n "config") "urls.py") Django.URLS_TEMPLATE
      ++ create_file_with_content (pjoin (pjoin n "config") "wsgi.py") Django.WSGI_TEMPLATE
      ++ create_file_with_content (pjoin (pjoin n "config") "asgi.py") Django.ASGI_TEMPLATE
      ++ [Ev.mkdirp (parentDir (pjoin n "manage.py"))],
    Django.create_django_app n "usecase1"
      ++ Django.create_django_app n "usecase2"
      ++ create_file_with_content (pjoin n "requirements.txt") Django.REQUIREMENTS_TEMPLATE
      ++ create_file_with_content (pjoin n ".env") Django.ENV_TEMPLATE
      ++ create_file_with_content (pjoin n ".gitignore") Django.GITIGNORE_TEMPLATE
      ++ t2, ?_⟩
  rw [ht]
  simp [Django.opsBeforeReadme, create_file_with_content, List.append_assoc]

set_option maxRecDepth 10000 in
/-- C6 amended, witness: a run that completes materialization but then fails
at `git init` (the world where `git init` exits 1) still writes `manage.py`
and chmods it immediately afterwards. -/
theorem claim_C6_amended_witness :
    (∃ pre post,
      (Django.create_project_structure gitFailWorld "Linux" "demo").1
        = pre ++ [Ev.write (pjoin "demo" "manage.py") Django.MANAGE_TEMPLATE,
                  Ev.chmod (pjoin "demo" "manage.py") 0o755] ++ post)
    ∧ ∀ (w2 : World) (system2 n2 : String),
        (FastApi.create_project_structure w2 system2 n2).1.all (fun e => !e.isChmod) = true :=
  claim_C6_amended gitFailWorld "Linux" "demo" (by decide)

set_option maxRecDepth 10000 in
/-- C7: at project name `demo` the Django generator materializes the
entry-point, the config module, the usecase trees, the dependency manifest,
`.env`, `.gitignore` and `README.md` under `demo/`, and the rendered README's
first line is `# demo` while its structure diagram contains the line `demo/`.
The FastAPI generator, however, raises `KeyError` while formatting
`SETUP_TEMPLATE` for `demo` (its unescaped `package_dir` braces) and so never
writes `demo/setup.py`, `demo/.env`, `demo/.gitignore` or `demo/README.md` —
the code bug behind this claim. -/
theorem claim_C7 :
    (["demo/manage.py", "demo/config/settings.py", "demo/config/urls.py",
      "demo/usecase1/models.py", "demo/usecase1/serializers.py", "demo/usecase1/views.py",
      "demo/usecase1/tests.py", "demo/usecase2/models.py", "demo/usecase2/tests.py",
      "demo/requirements.txt", "demo/.env", "demo/.gitignore", "demo/README.md"].all
        (fun pth =>
          ((writesOf (Django.create_project_structure allOk "Linux" "demo").1).map
            Prod.fst).contains pth)) = true
    ∧ (pjoin "demo" "README.md", Django.readmeRendered "demo")
        ∈ writesOf (Django.create_project_structure allOk "Linux" "demo").1
    ∧ Django.readmeRendered "demo"
        = "# demo\n" ++ (Django.READMEpart1mid ++ "\ndemo/\n" ++ Django.READMEpart2rest)
    ∧ (FastApi.create_project_structure allOk "Linux" "demo").2 = .raised (.keyError "\"\"")
    ∧ (["demo/setup.py", "demo/.env", "demo/.gitignore", "demo/README.md"].all
        (fun pth =>
          !((writesOf (FastApi.create_project_structure allOk "Linux" "demo").1).map
            Prod.fst).contains pth)) = true := by
  refine ⟨?_, ?_, Django.readme_demo_decomp, by rw [FastApi.fa_create_allOk], ?_⟩
  · rw [Django.write_paths_allOk]
    decide
  · rw [Django.dj_writes_allOk]
    simp [Django.renderedFiles]
  · rw [FastApi.fa_writes_allOk]
    decide

set_option maxRecDepth 10000 in
/-- C8: within one materialization pass no two entries target the same path:
the Django generator's write paths are pairwise distinct, and so are the
FastAPI generator's across all three of its op stages (its full intended
registry, contents irrelevant); the FastAPI package-marker touches collide
with no content-bearing write. -/
theorem claim_C8 (system n s r : String) :
    ((writesOf (Django.create_project_structure allOk system n).1).map Prod.fst).Nodup
    ∧ ((writesOf (FastApi.opsBeforeSetup n ++ FastApi.opsFromSetup n s
          ++ FastApi.opsFromReadme system n r)).map Prod.fst).Nodup
    ∧ ∀ p ∈ touchesOf (FastApi.opsBeforeSetup n ++ FastApi.opsFromSetup n s
          ++ FastApi.opsFromReadme system n r),
        p ∉ (writesOf (FastApi.opsBeforeSetup n ++ FastApi.opsFromSetup n s
          ++ FastApi.opsFromReadme system n r)).map Prod.fst := by
  refine ⟨?_, ?_, ?_⟩
  · rw [Django.write_paths_allOk]
    exact List.Nodup.map (pjoin_right_injective n) (by decide)
  · rw [FastApi.planned_write_paths]
    exact List.Nodup.map (pjoin_right_injective n) (by decide)
  · rw [FastApi.planned_touches, FastApi.planned_write_paths]
    exact disjoint_map_of_disjoint _ (pjoin_right_injective n) _ _ (by decide)

/-- C9: a raised error propagates unmodified to the top-level handler, which
prints `Error creating project: <message>` and exits with status 1.  For the
Django generator every raised error is a filesystem/venv `OSError` carrying
exactly the failing operation's message; for the FastAPI generator it is such
an `OSError` or the `KeyError` of its `setup.py` formatting. -/
theorem claim_C9 (w : World) (system p n : String) (e : PyExc) :
    ((Django.create_project_structure w system n).2 = .raised e →
      (∃ ev m, w.fsFail ev = some m ∧ e = .osError m)
      ∧ Django.main w system [p, n]
        = ([Ev.echo ("Creating new Django project: " ++ n)]
           ++ (Django.create_project_structure w system n).1
           ++ [.echo ("Error creating project: " ++ e.toMsg)], 1))
    ∧ ((FastApi.create_project_structure w system n).2 = .raised e →
      ((∃ ev m, w.fsFail ev = some m ∧ e = .osError m) ∨ e = .keyError "\"\"")
      ∧ FastApi.main w system [p, n]
        = ([Ev.echo ("Creating new project: " ++ n)]
           ++ (FastApi.create_project_structure w system n).1
           ++ [.echo ("Error creating project: " ++ e.toMsg)], 1)) := by
  constructor
  · intro h
    exact ⟨Django.dj_create_raised w system n e h, Django.dj_main_raised w system p n e h⟩
  · intro h
    exact ⟨FastApi.fa_create_raised w system n e h, FastApi.fa_main_raised w system p n e h⟩

set_option maxRecDepth 10000 in
/-- C9 witness: a world in which every chmod raises `OSError("Operation not
permitted")`: the Django run raises exactly that error and `main` prints the
handler line with the message unmodified and exits 1. -/
theorem claim_C9_witness :
    (∃ ev m, chmodFailWorld.fsFail ev = some m
      ∧ PyExc.osError "Operation not permitted" = .osError m)
    ∧ Django.main chmodFailWorld "Linux" ["create_django_project.py", "demo"]
      = ([Ev.echo ("Creating new Django project: " ++ "demo")]
         ++ (Django.create_project_structure chmodFailWorld "Linux" "demo").1
         ++ [.echo ("Error creating project: "
              ++ (PyExc.osError "Operation not permitted").toMsg)], 1) :=
  (claim_C9 chmodFailWorld "Linux" "create_django_project.py" "demo"
    (.osError "Operation not permitted")).1 (by decide)

/-- C10 counterexample: with the empty string as the single argument the
FastAPI generator's materialization does fail — at the `setup.py` formatting
step, as for every name — refuting "materialization does not fail" as a
statement about both generators. -/
theorem claim_C10_counterexample :
    (FastApi.create_project_structure allOk "Linux" "").2 = .raised (.keyError "\"\"") := by
  rw [FastApi.fa_create_allOk]

/-- C10 amended: with the empty string argument the base path resolves to the
current working directory (`Path("")` renders as `"."`), and every file either
generator writes goes directly into the current working directory (its path
is the bare relative path, with no subdirectory prefix); the Django
generator's materialization completes successfully, while the FastAPI
generator's fails at its `setup.py` formatting step, as it does for every
name. -/
theorem claim_C10_amended (system : String) :
    (Django.create_project_structure allOk system "").2
      = .success (Django.create_and_activate_venv system "").2.1
    ∧ (writesOf (Django.create_project_structure allOk system "").1).map Prod.fst
      = Django.allWriteRels
    ∧ (writesOf (FastApi.create_project_structure allOk system "").1).map Prod.fst
      = FastApi.staticFiles.map Prod.fst
    ∧ pathStr "" = "." := by
  refine ⟨by rw [Django.dj_create_allOk], ?_, ?_, rfl⟩
  · rw [Django.write_paths_allOk]
    decide
  · rw [FastApi.fa_writes_allOk]
    decide

end AutoProj
